import Mathlib

/-!
Verification development for the irys-storage upload service.

Each JavaScript component named in the claims is shallowly embedded as a
Lean definition over explicit state:

* `JSONUserManager`   — src/src/user-json-manager.js (flat-file ledger backend)
* `UserManager`       — src/src/user-database.js (SQLite ledger backend)
* `ProductionDatabase`, `UltraFastConnectionPool`, `IrysService`
                      — src/src/multi-user-api.js (production service)
* `ConnectionPool`, `MultiUserService`
                      — src/unnamed/part_001 (multi-user upload service)
* `SimplePool`        — src/src/api-production-final.js (polling pool)
* `TokenCreator3`     — src/unnamed/part_003 (+ the fastUpload uploader)
* `TokenCreator4`     — src/unnamed/part_004 (size-restricted token creator)

JavaScript objects used as string-keyed maps are embedded as association
lists (`List (String × α)`); SQLite tables as lists of row structures in
insertion order.  Wall-clock readings (`Date.now()`, `CURRENT_TIMESTAMP`)
are threaded as explicit `now : Int` arguments.  The remote network call
`upload(bytes, tags) -> receipt` is an oracle argument `UpOutcome`
(success with a transaction id, or failure — remote error or timeout).
-/

/-- JS `obj[k]` on a string-keyed object: first binding for the key. -/
def lookupKey {α : Type} (m : List (String × α)) (k : String) : Option α :=
  match m with
  | [] => none
  | (k', v) :: rest => if k' = k then some v else lookupKey rest k

/-- JS `obj[k] = v`: overwrite the binding if present, else append it. -/
def setKey {α : Type} (m : List (String × α)) (k : String) (v : α) :
    List (String × α) :=
  match m with
  | [] => [(k, v)]
  | (k', w) :: rest => if k' = k then (k, v) :: rest else (k', w) :: setKey rest k v

theorem lookupKey_setKey_self {α : Type} (m : List (String × α)) (k : String) (v : α) :
    lookupKey (setKey m k v) k = some v := by
  induction m with
  | nil => simp [setKey, lookupKey]
  | cons p rest ih =>
    by_cases h : p.1 = k
    · simp [setKey, lookupKey, h]
    · simp [setKey, lookupKey, h, ih]

theorem lookupKey_setKey_ne {α : Type} (m : List (String × α)) (k k' : String)
    (v : α) (h : k ≠ k') : lookupKey (setKey m k v) k' = lookupKey m k' := by
  induction m with
  | nil => simp [setKey, lookupKey, h]
  | cons p rest ih =>
    by_cases hp : p.1 = k
    · simp [setKey, lookupKey, hp, h]
    · simp [setKey, lookupKey, hp, ih]

theorem lookupKey_isSome_setKey {α : Type} (m : List (String × α)) (k k' : String)
    (v : α) (h : (lookupKey m k').isSome) :
    (lookupKey (setKey m k v) k').isSome := by
  by_cases hk : k = k'
  · subst hk; simp [lookupKey_setKey_self]
  · rwa [lookupKey_setKey_ne m k k' v hk]

theorem setKey_of_lookupKey_none {α : Type} (m : List (String × α)) (k : String)
    (v : α) (h : lookupKey m k = none) : setKey m k v = m ++ [(k, v)] := by
  induction m with
  | nil => simp [setKey]
  | cons p rest ih =>
    by_cases hp : p.1 = k
    · simp [lookupKey, hp] at h
    · simp [lookupKey, hp] at h
      simp [setKey, hp, ih h]

theorem keys_setKey_of_lookupKey_some {α : Type} (m : List (String × α))
    (k : String) (v w : α) (h : lookupKey m k = some w) :
    (setKey m k v).map Prod.fst = m.map Prod.fst := by
  induction m with
  | nil => simp [lookupKey] at h
  | cons p rest ih =>
    by_cases hp : p.1 = k
    · simp [setKey, hp]
    · simp [lookupKey, hp] at h
      simp [setKey, hp, ih h]

theorem mem_keys_of_lookupKey_some {α : Type} (m : List (String × α))
    (k : String) (v : α) (h : lookupKey m k = some v) : k ∈ m.map Prod.fst := by
  induction m with
  | nil => simp [lookupKey] at h
  | cons p rest ih =>
    by_cases hp : p.1 = k
    · simp [hp.symm]
    · simp [lookupKey, hp] at h
      simp [ih h]

theorem lookupKey_isSome_of_mem_keys {α : Type} (m : List (String × α))
    (k : String) (h : k ∈ m.map Prod.fst) : (lookupKey m k).isSome := by
  induction m with
  | nil => simp at h
  | cons p rest ih =>
    by_cases hp : p.1 = k
    · simp [lookupKey, hp]
    · simp [Ne.symm hp] at h
      obtain ⟨x, hx⟩ := h
      have hm : k ∈ rest.map Prod.fst := List.mem_map.mpr ⟨(k, x), hx, rfl⟩
      simp [lookupKey, hp, ih hm]

theorem lookupKey_append_left {α : Type} (m l : List (String × α)) (k : String)
    (v : α) (h : lookupKey m k = some v) : lookupKey (m ++ l) k = some v := by
  induction m with
  | nil => simp [lookupKey] at h
  | cons p rest ih =>
    by_cases hp : p.1 = k
    · simp [lookupKey, hp] at h ⊢; exact h
    · simp [lookupKey, hp] at h ⊢; exact ih h

theorem lookupKey_append_right {α : Type} (m l : List (String × α)) (k : String)
    (h : lookupKey m k = none) : lookupKey (m ++ l) k = lookupKey l k := by
  induction m with
  | nil => simp
  | cons p rest ih =>
    by_cases hp : p.1 = k
    · simp [lookupKey, hp] at h
    · simp [lookupKey, hp] at h ⊢; exact ih h

theorem lookupKey_none_of_append {α : Type} (m l : List (String × α)) (k : String)
    (h : lookupKey (m ++ l) k = none) : lookupKey m k = none := by
  cases hm : lookupKey m k with
  | none => rfl
  | some v => rw [lookupKey_append_left m l k v hm] at h; exact absurd h (by simp)

/-- Result shape shared by all three `checkRateLimit` implementations:
`{allowed, remaining, resetTime}`. -/
structure RateResult where
  allowed : Bool
  remaining : Int
  resetTime : Int
deriving Repr, DecidableEq

namespace JSONUserManager

/-- One element of `this.rateLimits[userId]`: `{timestamp, ipAddress}`. -/
structure RateEntry where
  timestamp : Int
  ipAddress : String
deriving Repr, DecidableEq

/-- `JSONUserManager.checkRateLimit(userId, ipAddress, timeWindowMs, maxRequests)`
(src/src/user-json-manager.js lines 122-159).  State is the
`this.rateLimits` object.  It initialises the user's entry list, prunes
entries at or older than `now - timeWindowMs`, counts the rest, and either
denies without appending, or appends `{timestamp: now, ipAddress}`. -/
def checkRateLimit (rateLimits : List (String × List RateEntry))
    (userId ipAddress : String) (now timeWindowMs : Int) (maxRequests : Nat) :
    List (String × List RateEntry) × RateResult :=
  let cutoffTime := now - timeWindowMs
  let entries := (lookupKey rateLimits userId).getD []
  let live := entries.filter (fun r => r.timestamp > cutoffTime)
  let requestCount := live.length
  if requestCount ≥ maxRequests then
    (setKey rateLimits userId live,
     { allowed := false, remaining := 0, resetTime := now + timeWindowMs })
  else
    (setKey rateLimits userId (live ++ [⟨now, ipAddress⟩]),
     { allowed := true, remaining := (maxRequests : Int) - requestCount - 1,
       resetTime := now + timeWindowMs })

end JSONUserManager

namespace UserManager

/-- A row of the `rate_limits` table of src/src/user-database.js
(`user_id`, `request_time` defaulted to `CURRENT_TIMESTAMP`, `ip_address`). -/
structure RateRow where
  userId : String
  requestTime : Int
  ipAddress : String
deriving Repr, DecidableEq

/-- `UserManager.checkRateLimit(userId, ipAddress, timeWindowMs, maxRequests)`
(src/src/user-database.js lines 188-234).  Counts rows of `rate_limits`
with this user id and `request_time > cutoff`; if the count is below the
ceiling it inserts a row (timestamped `now`) and admits, otherwise it
denies and inserts nothing. -/
def checkRateLimit (rows : List RateRow) (userId ipAddress : String)
    (now timeWindowMs : Int) (maxRequests : Nat) : List RateRow × RateResult :=
  let cutoffTime := now - timeWindowMs
  let requestCount :=
    (rows.filter (fun r => r.userId = userId ∧ r.requestTime > cutoffTime)).length
  if requestCount < maxRequests then
    (rows ++ [⟨userId, now, ipAddress⟩],
     { allowed := true, remaining := (maxRequests : Int) - requestCount - 1,
       resetTime := now + timeWindowMs })
  else
    (rows,
     { allowed := false, remaining := 0, resetTime := now + timeWindowMs })

end UserManager

namespace ProductionDatabase

/-- `CONFIG.RATE_LIMIT_PER_MINUTE` default (multi-user-api.js line 208). -/
def RATE_LIMIT_PER_MINUTE : Nat := 100

/-- `CONFIG.RATE_LIMIT_WINDOW` default, in ms (multi-user-api.js line 209). -/
def RATE_LIMIT_WINDOW : Int := 60000

/-- A row of the `rate_limits` table of multi-user-api.js
(`wallet_address`, `request_time`, `ip_address`). -/
structure RateRow where
  walletAddress : String
  requestTime : Int
  ipAddress : String
deriving Repr, DecidableEq

/-- `ProductionDatabase.checkRateLimit(walletAddress, ipAddress)`
(multi-user-api.js lines 451-494): same count-then-conditionally-insert
algorithm as `UserManager.checkRateLimit`, against the `CONFIG` ceiling
and window. -/
def checkRateLimit (rows : List RateRow) (walletAddress ipAddress : String)
    (now : Int) : List RateRow × RateResult :=
  let cutoffTime := now - RATE_LIMIT_WINDOW
  let requestCount :=
    (rows.filter (fun r =>
      r.walletAddress = walletAddress ∧ r.requestTime > cutoffTime)).length
  let allowed := requestCount < RATE_LIMIT_PER_MINUTE
  if allowed then
    (rows ++ [⟨walletAddress, now, ipAddress⟩],
     { allowed := true, remaining := (RATE_LIMIT_PER_MINUTE : Int) - requestCount - 1,
       resetTime := now + RATE_LIMIT_WINDOW })
  else
    (rows,
     { allowed := false, remaining := 0, resetTime := now + RATE_LIMIT_WINDOW })

end ProductionDatabase

/-- Result of one `getConnection()` attempt: a handle obtained (reused or
newly constructed), the caller suspended, the caller told to poll again,
or construction failed (the error propagates). -/
inductive AcquireResult where
  | got (handle : Nat)
  | suspended
  | retryLater
  | failed
deriving Repr, DecidableEq

namespace ConnectionPool

/-- `ConnectionPool` of src/unnamed/part_001 (lines 49-81): `pool` (idle
handles, used as a stack), `activeConnections` (a counter), `maxConnections`,
and `waitingQueue` (suspended acquirers' `resolve` callbacks, FIFO).
Handles and waiters are identified by `Nat` tokens. -/
structure State where
  pool : List Nat
  activeConnections : Nat
  maxConnections : Nat
  waitingQueue : List Nat
deriving Repr, DecidableEq

/-- `ConnectionPool.getConnection()` (part_001 lines 57-71).
`constructionOk` is the outcome of `await Uploader(Solana).withWallet(...)`;
`newHandle` the handle it would construct; `waiter` identifies this caller
if it suspends.  Note the source increments `activeConnections` *before*
the `await`, and has no catch: a failed construction leaves the counter
incremented. -/
def getConnection (s : State) (constructionOk : Bool) (newHandle waiter : Nat) :
    State × AcquireResult :=
  match s.pool.getLast? with
  | some h => ({ s with pool := s.pool.dropLast }, .got h)
  | none =>
    if s.activeConnections < s.maxConnections then
      let s' := { s with activeConnections := s.activeConnections + 1 }
      if constructionOk then (s', .got newHandle) else (s', .failed)
    else
      ({ s with waitingQueue := s.waitingQueue ++ [waiter] }, .suspended)

/-- `ConnectionPool.releaseConnection(uploader)` (part_001 lines 73-80):
if an acquirer waits, shift the queue head and hand it the handle (the
idle pool is untouched); otherwise push the handle onto the idle pool.
Returns the waiter that received the handle, if any. -/
def releaseConnection (s : State) (handle : Nat) : State × Option Nat :=
  match s.waitingQueue with
  | w :: rest => ({ s with waitingQueue := rest }, some w)
  | [] => ({ s with pool := s.pool ++ [handle] }, none)

end ConnectionPool

namespace UltraFastConnectionPool

/-- `UltraFastConnectionPool` of multi-user-api.js (lines 550-615):
`pool` (idle), `active` (handles currently lent out), `waiting` (FIFO
suspended acquirers) and the `stats` counters `created`/`reused`/`errors`. -/
structure State where
  pool : List Nat
  active : List Nat
  waiting : List Nat
  maxConnections : Nat
  created : Nat
  reused : Nat
  errors : Nat
deriving Repr, DecidableEq

/-- `UltraFastConnectionPool.getConnection()` (multi-user-api.js lines
559-586).  Reuse an idle handle if any; else construct when
`active.length < maxConnections` — on construction failure `stats.errors`
is incremented, nothing is pushed to `active`, and the error propagates;
else suspend the caller on the `waiting` queue. -/
def getConnection (s : State) (constructionOk : Bool) (newHandle waiter : Nat) :
    State × AcquireResult :=
  match s.pool.getLast? with
  | some h =>
    ({ s with pool := s.pool.dropLast, active := s.active ++ [h],
              reused := s.reused + 1 }, .got h)
  | none =>
    if s.active.length < s.maxConnections then
      if constructionOk then
        ({ s with active := s.active ++ [newHandle], created := s.created + 1 },
         .got newHandle)
      else
        ({ s with errors := s.errors + 1 }, .failed)
    else
      ({ s with waiting := s.waiting ++ [waiter] }, .suspended)

/-- `UltraFastConnectionPool.releaseConnection(connection)` (multi-user-api.js
lines 588-605): remove the handle from `active`; if an acquirer waits,
shift the queue head, push the handle back into `active` and resolve that
acquirer with it (the idle `pool` is untouched); otherwise park the handle
in `pool`.  Returns the waiter that received the handle, if any. -/
def releaseConnection (s : State) (handle : Nat) : State × Option Nat :=
  let active' := s.active.erase handle
  match s.waiting with
  | w :: rest =>
    ({ s with active := active' ++ [handle], waiting := rest }, some w)
  | [] =>
    ({ s with active := active', pool := s.pool ++ [handle] }, none)

end UltraFastConnectionPool

namespace SimplePool

/-- The module-level pool of src/src/api-production-final.js (lines
140-164): an idle array `connectionPool`, a counter `activeConnections`
and `maxConnections`.  There is no waiting queue: an acquirer that finds
the pool exhausted sleeps 100 ms and retries. -/
structure State where
  connectionPool : List Nat
  activeConnections : Nat
  maxConnections : Nat
deriving Repr, DecidableEq

/-- `getConnection()` (api-production-final.js lines 145-160): pop an idle
handle; else if under the limit increment `activeConnections` (before the
`await`) and construct; else sleep and retry (`retryLater`). -/
def getConnection (s : State) (constructionOk : Bool) (newHandle : Nat) :
    State × AcquireResult :=
  match s.connectionPool.getLast? with
  | some h => ({ s with connectionPool := s.connectionPool.dropLast }, .got h)
  | none =>
    if s.activeConnections < s.maxConnections then
      let s' := { s with activeConnections := s.activeConnections + 1 }
      if constructionOk then (s', .got newHandle) else (s', .failed)
    else
      (s, .retryLater)

/-- `releaseConnection(connection)` (api-production-final.js lines
162-164): unconditionally push the handle onto the idle array — polling
acquirers are never handed the handle directly. -/
def releaseConnection (s : State) (handle : Nat) : State :=
  { s with connectionPool := s.connectionPool ++ [handle] }

end SimplePool

namespace JSONUserManager

/-- A value of `this.users[userId]` (user-json-manager.js lines 70-87). -/
structure User where
  userId : String
  email : Option String
  createdAt : Int
  lastActivity : Int
  totalUploads : Nat
  totalSizeBytes : Nat
  status : String
deriving Repr, DecidableEq

/-- The `uploadData` argument of `recordUpload`. -/
structure UploadData where
  transactionId : String
  fileName : String
  fileSize : Nat
  contentType : String
  publicURL : String
  uploadTime : Nat
deriving Repr, DecidableEq

/-- An element of `this.uploads[userId]` (user-json-manager.js lines
97-106).  The `crypto.randomUUID()` row id is an opaque fresh token with
no other use and is elided. -/
structure UploadRecord where
  transactionId : String
  fileName : String
  fileSize : Nat
  contentType : String
  publicURL : String
  uploadTime : Nat
  createdAt : Int
deriving Repr, DecidableEq

/-- The in-memory stores of `JSONUserManager` relevant to users and
uploads (`this.users`, `this.uploads`). -/
structure Store where
  users : List (String × User)
  uploads : List (String × List UploadRecord)
deriving Repr, DecidableEq

/-- `JSONUserManager.createOrGetUser(userId, email)` (user-json-manager.js
lines 70-87): create the user with zeroed statistics if absent, else
touch `lastActivity`. -/
def createOrGetUser (st : Store) (userId : String) (email : Option String)
    (now : Int) : Store :=
  match lookupKey st.users userId with
  | none =>
    { st with users :=
        setKey st.users userId ⟨userId, email, now, now, 0, 0, "active"⟩ }
  | some u =>
    { st with users := setKey st.users userId { u with lastActivity := now } }

/-- `JSONUserManager.recordUpload(userId, uploadData)` (user-json-manager.js
lines 90-119): always append the upload record to `this.uploads[userId]`;
update the user's statistics only `if (this.users[userId])` exists. -/
def recordUpload (st : Store) (userId : String) (d : UploadData) (now : Int) :
    Store :=
  let rec_ : UploadRecord :=
    ⟨d.transactionId, d.fileName, d.fileSize, d.contentType, d.publicURL,
     d.uploadTime, now⟩
  let uploads' :=
    setKey st.uploads userId ((lookupKey st.uploads userId).getD [] ++ [rec_])
  let users' :=
    match lookupKey st.users userId with
    | some u =>
      setKey st.users userId
        { u with totalUploads := u.totalUploads + 1,
                 totalSizeBytes := u.totalSizeBytes + d.fileSize,
                 lastActivity := now }
    | none => st.users
  { users := users', uploads := uploads' }

/-- An operation against the JSON store, with its wall-clock instant. -/
inductive Op where
  | create (userId : String) (email : Option String) (now : Int)
  | record (userId : String) (d : UploadData) (now : Int)
deriving Repr, DecidableEq

/-- Apply one operation. -/
def applyOp (st : Store) : Op → Store
  | .create userId email now => createOrGetUser st userId email now
  | .record userId d now => recordUpload st userId d now

/-- Run a sequence of operations from the empty store (a fresh data
directory). -/
def run (ops : List Op) : Store :=
  ops.foldl applyOp ⟨[], []⟩

/-- `disciplinedFrom seen ops`: every `recordUpload` in `ops` is for an
identity that already received a `createOrGetUser`, either earlier in
`ops` or in the history summarised by `seen`. -/
def disciplinedFrom (seen : List String) : List Op → Bool
  | [] => true
  | .create userId _ _ :: rest => disciplinedFrom (userId :: seen) rest
  | .record userId _ _ :: rest => userId ∈ seen && disciplinedFrom seen rest

/-- Total size in bytes of a list of upload records. -/
def sumSizes (l : List UploadRecord) : Nat :=
  (l.map (·.fileSize)).sum

/-- Statistics agreement for one identity: if it has a user record, its
`totalUploads` is the number of its stored upload records and its
`totalSizeBytes` their total size. -/
def statsOk (st : Store) (k : String) : Prop :=
  match lookupKey st.users k with
  | some u =>
    u.totalUploads = ((lookupKey st.uploads k).getD []).length ∧
    u.totalSizeBytes = sumSizes ((lookupKey st.uploads k).getD [])
  | none => True

instance statsOk.dec (st : Store) (k : String) : Decidable (statsOk st k) := by
  unfold statsOk
  cases lookupKey st.users k with
  | none => exact inferInstance
  | some u => exact inferInstance

/-- The per-identity statistics invariant over every stored user. -/
def Inv (st : Store) : Prop :=
  ∀ k ∈ st.users.map Prod.fst, statsOk st k

instance Inv.dec (st : Store) : Decidable (Inv st) := by
  unfold Inv; infer_instance

/-- Auxiliary invariant carried through the induction: the statistics
invariant, plus: an identity without a user record owns no uploads entry,
and every identity in `seen` has a user record. -/
def StrongInv (seen : List String) (st : Store) : Prop :=
  Inv st ∧
  (∀ k, lookupKey st.users k = none → lookupKey st.uploads k = none) ∧
  (∀ k ∈ seen, (lookupKey st.users k).isSome)

end JSONUserManager

namespace UserManager

/-- A row of `user_sessions` (user-database.js lines 42-51). -/
structure UserRow where
  userId : String
  email : Option String
  createdAt : Int
  lastActivity : Int
  totalUploads : Nat
  totalSizeBytes : Nat
  status : String
deriving Repr, DecidableEq

/-- A row of `upload_history` (user-database.js lines 54-65).  Note the
schema declares `transaction_id TEXT NOT NULL` with **no** UNIQUE
constraint. -/
structure HistoryRow where
  userId : String
  transactionId : String
  fileName : String
  fileSize : Nat
  fileType : String
  publicUrl : String
  uploadTime : Nat
  createdAt : Int
deriving Repr, DecidableEq

/-- A row of `active_uploads` (user-database.js lines 78-86). -/
structure ActiveRow where
  rowId : Nat
  userId : String
  sessionId : String
  fileName : String
  startedAt : Int
  status : String
deriving Repr, DecidableEq

/-- The user-database.js SQLite database. -/
structure DB where
  userSessions : List UserRow
  uploadHistory : List HistoryRow
  rateLimits : List RateRow
  activeUploads : List ActiveRow
deriving Repr, DecidableEq

/-- The `uploadData` argument of `UserManager.recordUpload`. -/
structure UploadData where
  transactionId : String
  fileName : String
  fileSize : Nat
  contentType : String
  publicURL : String
  uploadTime : Nat
deriving Repr, DecidableEq

/-- `UserManager.createOrGetUser(userId, email)` (user-database.js lines
121-139): `INSERT ... ON CONFLICT(user_id) DO UPDATE SET last_activity`. -/
def createOrGetUser (db : DB) (userId : String) (email : Option String)
    (now : Int) : DB :=
  if (db.userSessions.filter (·.userId = userId)) = [] then
    { db with userSessions :=
        db.userSessions ++ [⟨userId, email, now, now, 0, 0, "active"⟩] }
  else
    { db with userSessions :=
        db.userSessions.map (fun u =>
          if u.userId = userId then { u with lastActivity := now } else u) }

/-- `UserManager.recordUpload(userId, uploadData)` (user-database.js lines
142-185): insert the `upload_history` row, then bump the user's
statistics.  `upload_history.transaction_id` carries no unique
constraint, so the insert succeeds even for a transaction id already
present, and the statistics are bumped again. -/
def recordUpload (db : DB) (userId : String) (d : UploadData) (now : Int) : DB :=
  let row : HistoryRow :=
    ⟨userId, d.transactionId, d.fileName, d.fileSize, d.contentType,
     d.publicURL, d.uploadTime, now⟩
  { db with
    uploadHistory := db.uploadHistory ++ [row],
    userSessions := db.userSessions.map (fun u =>
      if u.userId = userId then
        { u with totalUploads := u.totalUploads + 1,
                 totalSizeBytes := u.totalSizeBytes + d.fileSize,
                 lastActivity := now }
      else u) }

/-- `UserManager.startUpload(userId, sessionId, fileName)` (user-database.js
lines 237-252): insert an `active_uploads` row with status `uploading`;
its AUTOINCREMENT id is the row count so far plus one. -/
def startUpload (db : DB) (userId sessionId fileName : String) (now : Int) :
    DB × Nat :=
  let rowId := db.activeUploads.length + 1
  ({ db with activeUploads :=
      db.activeUploads ++ [⟨rowId, userId, sessionId, fileName, now, "uploading"⟩] },
   rowId)

/-- `UserManager.completeUpload(uploadSessionId, status)` (user-database.js
lines 255-271): set the row's status. -/
def completeUpload (db : DB) (uploadSessionId : Nat) (status : String) : DB :=
  { db with activeUploads := db.activeUploads.map (fun r =>
      if r.rowId = uploadSessionId then { r with status := status } else r) }

end UserManager

namespace ProductionDatabase

/-- `CONFIG.MAX_UPLOAD_SIZE` default, bytes (multi-user-api.js line 202). -/
def MAX_UPLOAD_SIZE : Nat := 2097152

/-- A row of `users` (multi-user-api.js lines 285-293). -/
structure UserRow where
  walletAddress : String
  createdAt : Int
  lastActivity : Int
  totalUploads : Nat
  totalSizeBytes : Nat
  status : String
deriving Repr, DecidableEq

/-- A row of `uploads` (multi-user-api.js lines 296-311);
`transaction_id TEXT UNIQUE NOT NULL`. -/
structure UploadRow where
  walletAddress : String
  transactionId : String
  fileName : String
  fileSize : Nat
  fileType : String
  category : String
  publicUrl : String
  metadataJson : Option String
  uploadTimeMs : Nat
  tagsJson : Option String
  sessionId : Option String
deriving Repr, DecidableEq

/-- A row of `token_assets` (multi-user-api.js lines 314-329).  The
schema declares FOREIGN KEYs from `logo_transaction_id` and
`metadata_transaction_id` to `uploads(transaction_id)`, but the sqlite3
driver never executes `PRAGMA foreign_keys = ON`, so they are not
enforced at runtime. -/
structure TokenAssetRow where
  walletAddress : String
  tokenName : String
  tokenSymbol : String
  logoTransactionId : String
  logoUrl : String
  metadataTransactionId : String
  metadataUrl : String
  metadataJson : String
  sessionId : Option String
deriving Repr, DecidableEq

/-- The multi-user-api.js production SQLite database. -/
structure DB where
  users : List UserRow
  uploads : List UploadRow
  tokenAssets : List TokenAssetRow
  rateLimits : List RateRow
deriving Repr, DecidableEq

/-- Errors surfaced by the ledger operations.  `DuplicateTransaction` is
the SQLITE_CONSTRAINT failure of the UNIQUE index on
`uploads.transaction_id`. -/
inductive DBError where
  | DuplicateTransaction
deriving Repr, DecidableEq

/-- `ProductionDatabase.createOrUpdateUser(walletAddress)` (multi-user-api.js
lines 359-373): `INSERT ... ON CONFLICT(wallet_address) DO UPDATE SET
last_activity`. -/
def createOrUpdateUser (db : DB) (walletAddress : String) (now : Int) : DB :=
  if (db.users.filter (·.walletAddress = walletAddress)) = [] then
    { db with users :=
        db.users ++ [⟨walletAddress, now, now, 0, 0, "active"⟩] }
  else
    { db with users := db.users.map (fun u =>
        if u.walletAddress = walletAddress then { u with lastActivity := now }
        else u) }

/-- The upload-result data recorded by `ProductionDatabase.recordUpload`. -/
structure UploadData where
  transactionId : String
  fileName : String
  fileSize : Nat
  contentType : String
  category : String
  publicURL : String
  uploadTime : Nat
  sessionId : Option String
deriving Repr, DecidableEq

/-- `ProductionDatabase.recordUpload(walletAddress, uploadData, metadataJson,
tagsJson)` (multi-user-api.js lines 376-421): insert the `uploads` row —
rejected by the UNIQUE constraint when the transaction id is already
present, in which case nothing further runs — then, in the same
serialized step, bump the user's `total_uploads`/`total_size_bytes`
(an UPDATE matching zero rows when the user record is absent). -/
def recordUpload (db : DB) (walletAddress : String) (d : UploadData)
    (metadataJson tagsJson : Option String) : Except DBError DB :=
  if db.uploads.any (·.transactionId = d.transactionId) then
    .error .DuplicateTransaction
  else
    .ok { db with
      uploads := db.uploads ++
        [⟨walletAddress, d.transactionId, d.fileName, d.fileSize,
          d.contentType, d.category, d.publicURL, metadataJson, d.uploadTime,
          tagsJson, d.sessionId⟩],
      users := db.users.map (fun u =>
        if u.walletAddress = walletAddress then
          { u with totalUploads := u.totalUploads + 1,
                   totalSizeBytes := u.totalSizeBytes + d.fileSize }
        else u) }

/-- The token-pair data recorded by `recordTokenAsset`. -/
structure TokenData where
  name : String
  symbol : String
  metadataJson : String
deriving Repr, DecidableEq

/-- `ProductionDatabase.recordTokenAsset(walletAddress, tokenData, logoData,
metadataData, sessionId)` (multi-user-api.js lines 424-448): a single
unconditional INSERT into `token_assets`.  No check that the referenced
transaction ids exist is performed, and the declared FOREIGN KEYs are not
enforced (no `PRAGMA foreign_keys = ON`), so the insert always succeeds. -/
def recordTokenAsset (db : DB) (walletAddress : String) (t : TokenData)
    (logoTx logoUrl metaTx metaUrl : String) (sessionId : Option String) : DB :=
  { db with tokenAssets := db.tokenAssets ++
      [⟨walletAddress, t.name, t.symbol, logoTx, logoUrl, metaTx, metaUrl,
        t.metadataJson, sessionId⟩] }

end ProductionDatabase

/-- Outcome of one remote `upload(bytes, tags) -> receipt` call as raced
against the timeout: either a receipt id, or a failure (remote rejection
or `Upload timeout`). -/
inductive UpOutcome where
  | ok (txid : String)
  | err
deriving Repr, DecidableEq

/-- What the validators observe about a candidate file path:
`fs.existsSync`, `fs.statSync(...).size`, `path.extname(...).toLowerCase()`
and `path.basename(...)`. -/
structure FileSpec where
  fileExists : Bool
  size : Nat
  ext : String
  baseName : String
deriving Repr, DecidableEq

/-- Validation failure kinds thrown by the validators (each variant uses
the subset its code contains). -/
inductive ValidationError where
  | NotFound
  | UnsupportedType
  | TooLarge (size limit : Nat)
  | EmptyFile
deriving Repr, DecidableEq

namespace IrysService

/-- Entry of the `SUPPORTED_TYPES` registry of multi-user-api.js (lines
225-248): `{mime, category, maxSize}`. -/
structure TypeInfo where
  mime : String
  category : String
  maxSize : Nat
deriving Repr, DecidableEq

open ProductionDatabase in
/-- `SUPPORTED_TYPES` (multi-user-api.js lines 225-248), with the default
`CONFIG.MAX_UPLOAD_SIZE`. -/
def SUPPORTED_TYPES : List (String × TypeInfo) :=
  [ (".jpg",  ⟨"image/jpeg", "image", MAX_UPLOAD_SIZE⟩),
    (".jpeg", ⟨"image/jpeg", "image", MAX_UPLOAD_SIZE⟩),
    (".png",  ⟨"image/png", "image", MAX_UPLOAD_SIZE⟩),
    (".gif",  ⟨"image/gif", "image", MAX_UPLOAD_SIZE⟩),
    (".webp", ⟨"image/webp", "image", MAX_UPLOAD_SIZE⟩),
    (".svg",  ⟨"image/svg+xml", "image", MAX_UPLOAD_SIZE⟩),
    (".avif", ⟨"image/avif", "image", MAX_UPLOAD_SIZE⟩),
    (".mp4",  ⟨"video/mp4", "video", MAX_UPLOAD_SIZE * 5⟩),
    (".mov",  ⟨"video/quicktime", "video", MAX_UPLOAD_SIZE * 5⟩),
    (".webm", ⟨"video/webm", "video", MAX_UPLOAD_SIZE * 5⟩),
    (".mp3",  ⟨"audio/mpeg", "audio", MAX_UPLOAD_SIZE * 3⟩),
    (".wav",  ⟨"audio/wav", "audio", MAX_UPLOAD_SIZE * 3⟩),
    (".flac", ⟨"audio/flac", "audio", MAX_UPLOAD_SIZE * 3⟩),
    (".pdf",  ⟨"application/pdf", "document", MAX_UPLOAD_SIZE⟩),
    (".json", ⟨"application/json", "document", MAX_UPLOAD_SIZE⟩) ]

/-- Successful result of `IrysUploadService.validateFile`. -/
structure FileInfo where
  size : Nat
  type : TypeInfo
  fileName : String
deriving Repr, DecidableEq

/-- `IrysUploadService.validateFile(filePath)` (multi-user-api.js lines
661-689), in source order: existence, registry lookup, `size > maxSize`
(strict), `size === 0`. -/
def validateFile (f : FileSpec) : Except ValidationError FileInfo :=
  if ¬ f.fileExists then .error .NotFound
  else
    match lookupKey SUPPORTED_TYPES f.ext with
    | none => .error .UnsupportedType
    | some ti =>
      if f.size > ti.maxSize then .error (.TooLarge f.size ti.maxSize)
      else if f.size = 0 then .error .EmptyFile
      else .ok ⟨f.size, ti, f.baseName⟩

/-- Failure kinds of `uploadFile`/`createTokenAssets`: validation,
rate-limit denial, remote failure (rejection or timeout), or a ledger
constraint failure. -/
inductive ServiceError where
  | validation (e : ValidationError)
  | rateLimited
  | remote
  | ledger (e : ProductionDatabase.DBError)
deriving Repr, DecidableEq

/-- Successful result of `IrysUploadService.uploadFile`. -/
structure UploadResult where
  transactionId : String
  publicURL : String
  fileName : String
  fileSize : Nat
  contentType : String
  category : String
  sessionId : String
deriving Repr, DecidableEq

/-- `IrysUploadService.uploadFile(filePath, walletAddress, customTags,
sessionId)` (multi-user-api.js lines 692-753): validate, acquire a pooled
connection, upload racing the timeout, and on success derive the public
URL from the receipt id.  The connection borrow/release does not touch
the ledger or the filesystem and is verified separately on the pool
embedding; the measured `uploadTime` is wall-clock noise and elided. -/
def uploadFile (f : FileSpec) (outcome : UpOutcome) (sessionId : String) :
    Except ServiceError UploadResult :=
  match validateFile f with
  | .error e => .error (.validation e)
  | .ok info =>
    match outcome with
    | .err => .error .remote
    | .ok txid =>
      .ok ⟨txid, "https://gateway.irys.xyz/" ++ txid, info.fileName, info.size,
           info.type.mime, info.type.category, sessionId⟩

/-- The caller-supplied token data (attributes/creators/description are
opaque pass-through strings). -/
structure TokenInput where
  name : String
  symbol : String
  description : String
  website : Option String
deriving Repr, DecidableEq

/-- The metadata document built by the token pipelines.  Only the fields
the claims speak about are kept structured: `image`, `properties.files[0]`
(`filesUri`, `filesType`) and `properties.category`; pass-through fields
(attributes, creators, upload_details) are opaque. -/
structure MetadataDoc where
  name : String
  symbol : String
  description : String
  image : String
  externalUrl : String
  filesUri : String
  filesType : String
  category : String
deriving Repr, DecidableEq

/-- Successful result of `IrysUploadService.createTokenAssets`. -/
structure TokenResult where
  logoURL : String
  metadataURL : String
  logoTxId : String
  metadataTxId : String
  logoType : String
  category : String
  metadata : MetadataDoc
  sessionId : String
deriving Repr, DecidableEq

open ProductionDatabase in
/-- `IrysUploadService.createTokenAssets(tokenData, walletAddress,
ipAddress)` (multi-user-api.js lines 756-869), over the production
database and a set of temp-file paths. Steps, in source order: rate-limit
check; `createOrUpdateUser`; validate the logo; upload the logo; build
the metadata document (`files[0].type := logoInfo.type.mime`); write it
to `metadataPath` (a fresh temp file); upload it; then record both
uploads and the token asset (the source fires these via `Promise.all`;
they are laid out here in the listed order); the `finally` block deletes
`metadataPath` on every exit path on which it was created.
`metadataSize` is the byte size of the written metadata document. -/
def createTokenAssets (db : DB) (tempFiles : List String) (t : TokenInput)
    (logo : FileSpec) (walletAddress ipAddress : String)
    (logoOutcome metaOutcome : UpOutcome) (metadataSize : Nat) (now : Int) :
    Except ServiceError TokenResult × DB × List String :=
  let sessionId := "token_" ++ (walletAddress.take 8) ++ "_" ++ toString now
  let rl := ProductionDatabase.checkRateLimit db.rateLimits
      walletAddress ipAddress now
  let db1 := { db with rateLimits := rl.1 }
  if ¬ rl.2.allowed then (.error .rateLimited, db1, tempFiles)
  else
    let db2 := createOrUpdateUser db1 walletAddress now
    match validateFile logo with
    | .error e => (.error (.validation e), db2, tempFiles)
    | .ok logoInfo =>
      match uploadFile logo logoOutcome sessionId with
      | .error e => (.error e, db2, tempFiles)
      | .ok logoResult =>
        let metadata : MetadataDoc :=
          { name := t.name, symbol := t.symbol, description := t.description,
            image := logoResult.publicURL,
            externalUrl := t.website.getD "",
            filesUri := logoResult.publicURL,
            filesType := logoInfo.type.mime,
            category := logoInfo.type.category }
        let metadataPath := "temp/metadata_" ++ sessionId ++ ".json"
        let tempFiles1 := tempFiles ++ [metadataPath]
        let metaSpec : FileSpec :=
          ⟨true, metadataSize, ".json", "metadata_" ++ sessionId ++ ".json"⟩
        match uploadFile metaSpec metaOutcome sessionId with
        | .error e => (.error e, db2, tempFiles1.erase metadataPath)
        | .ok metadataResult =>
          let logoData : ProductionDatabase.UploadData :=
            ⟨logoResult.transactionId, logoResult.fileName, logoResult.fileSize,
             logoResult.contentType, logoResult.category, logoResult.publicURL,
             0, some sessionId⟩
          let metaData : ProductionDatabase.UploadData :=
            ⟨metadataResult.transactionId, metadataResult.fileName,
             metadataResult.fileSize, metadataResult.contentType,
             metadataResult.category, metadataResult.publicURL, 0,
             some sessionId⟩
          match recordUpload db2 walletAddress logoData none (some "tags") with
          | .error e => (.error (.ledger e), db2, tempFiles1.erase metadataPath)
          | .ok db3 =>
            match recordUpload db3 walletAddress metaData
                (some "metadata") (some "tags") with
            | .error e => (.error (.ledger e), db3, tempFiles1.erase metadataPath)
            | .ok db4 =>
              let db5 := recordTokenAsset db4 walletAddress
                  ⟨t.name, t.symbol, "metadata"⟩
                  logoResult.transactionId logoResult.publicURL
                  metadataResult.transactionId metadataResult.publicURL
                  (some sessionId)
              (.ok { logoURL := logoResult.publicURL,
                     metadataURL := metadataResult.publicURL,
                     logoTxId := logoResult.transactionId,
                     metadataTxId := metadataResult.transactionId,
                     logoType := logoInfo.type.mime,
                     category := logoInfo.type.category,
                     metadata := metadata, sessionId := sessionId },
               db5, tempFiles1.erase metadataPath)

end IrysService

namespace MultiUserService

/-- `CONFIG.MAX_UPLOAD_SIZE` default of src/unnamed/part_001 (line 21). -/
def MAX_UPLOAD_SIZE : Nat := 2097152

/-- Entry of the `FILE_TYPES` registry of part_001 (lines 37-46). -/
structure TypeInfo where
  mime : String
  category : String
deriving Repr, DecidableEq

/-- `FILE_TYPES` (part_001 lines 37-46). -/
def FILE_TYPES : List (String × TypeInfo) :=
  [ (".jpg",  ⟨"image/jpeg", "image"⟩),
    (".jpeg", ⟨"image/jpeg", "image"⟩),
    (".png",  ⟨"image/png", "image"⟩),
    (".gif",  ⟨"image/gif", "image"⟩),
    (".webp", ⟨"image/webp", "image"⟩),
    (".mp4",  ⟨"video/mp4", "video"⟩),
    (".mp3",  ⟨"audio/mpeg", "audio"⟩),
    (".json", ⟨"application/json", "document"⟩) ]

/-- Failures thrown by `uploadFileWithUserTracking`. -/
inductive MUError where
  | rateLimited
  | validation (e : ValidationError)
  | remote
deriving Repr, DecidableEq

/-- Successful result of `uploadFileWithUserTracking`. -/
structure UploadResult where
  transactionId : String
  publicURL : String
  fileName : String
  fileSize : Nat
  contentType : String
deriving Repr, DecidableEq

/-- `uploadFileWithUserTracking(filePath, customTags, userId, ipAddress)`
(part_001 lines 86-206), with `USE_SQLITE` (the default) so the ledger is
the user-database.js `UserManager`.  Steps in source order:
`createOrGetUser`; `checkRateLimit` (the call passes no window/ceiling, so
the defaults 60000 ms / 60 apply) with denial thrown; validation
(existence, registry, `size > CONFIG.MAX_UPLOAD_SIZE`); `startUpload`;
connection acquire (verified separately on the pool embedding); the
raced remote upload; on success `recordUpload` + `completeUpload
'completed'`, on remote failure `completeUpload 'failed'` in the catch.
`sessionId` stands for this call's `crypto.randomUUID()`. -/
def uploadFileWithUserTracking (db : UserManager.DB) (f : FileSpec)
    (userId ipAddress : String) (outcome : UpOutcome) (sessionId : String)
    (now : Int) : Except MUError UploadResult × UserManager.DB :=
  let db1 := UserManager.createOrGetUser db userId none now
  let rl := UserManager.checkRateLimit db1.rateLimits userId
      ipAddress now 60000 60
  let db2 := { db1 with rateLimits := rl.1 }
  if ¬ rl.2.allowed then (.error .rateLimited, db2)
  else if ¬ f.fileExists then (.error (.validation .NotFound), db2)
  else
    match lookupKey FILE_TYPES f.ext with
    | none => (.error (.validation .UnsupportedType), db2)
    | some ti =>
      if f.size > MAX_UPLOAD_SIZE then
        (.error (.validation (.TooLarge f.size MAX_UPLOAD_SIZE)), db2)
      else
        let su := UserManager.startUpload db2 userId sessionId f.baseName now
        let db3 := su.1
        let uploadSessionId := su.2
        match outcome with
        | .ok txid =>
          let result : UploadResult :=
            ⟨txid, "https://gateway.irys.xyz/" ++ txid, f.baseName, f.size,
             ti.mime⟩
          let db4 := UserManager.recordUpload db3 userId
              ⟨txid, f.baseName, f.size, ti.mime,
               "https://gateway.irys.xyz/" ++ txid, 0⟩ now
          let db5 := UserManager.completeUpload db4 uploadSessionId "completed"
          (.ok result, db5)
        | .err =>
          (.error .remote, UserManager.completeUpload db3 uploadSessionId "failed")

/-- Successful result of `createTokenAssetsMultiUser`, including the
metadata document it wrote and uploaded. -/
structure TokenResult where
  logoURL : String
  metadataURL : String
  logoTxId : String
  metadataTxId : String
  logoType : String
  metadata : IrysService.MetadataDoc
deriving Repr, DecidableEq

/-- `createTokenAssetsMultiUser(tokenData, userId, ipAddress)` (part_001
lines 209-292): upload the logo (which records it in the ledger on
success); look the logo's type up in `FILE_TYPES`; build the metadata
document with `files[0].type := logoInfo.mime`; write it to a fresh
`metadataPath`; upload it; the `finally` block deletes `metadataPath`
whenever it was created, on success and on failure alike.  The
`(lookupKey ...).getD ⟨"undefined", "undefined"⟩` models the unchecked
`FILE_TYPES[ext]` member access, reachable only after a successful logo
upload (which guarantees a registry hit). -/
def createTokenAssetsMultiUser (db : UserManager.DB) (tempFiles : List String)
    (t : IrysService.TokenInput) (logo : FileSpec) (userId ipAddress : String)
    (logoOutcome metaOutcome : UpOutcome) (metadataSize : Nat)
    (sid1 sid2 : String) (now : Int) :
    Except MUError TokenResult × UserManager.DB × List String :=
  match uploadFileWithUserTracking db logo userId ipAddress logoOutcome sid1 now with
  | (.error e, db1) => (.error e, db1, tempFiles)
  | (.ok logoResult, db1) =>
    let logoInfo := (lookupKey FILE_TYPES logo.ext).getD ⟨"undefined", "undefined"⟩
    let metadata : IrysService.MetadataDoc :=
      { name := t.name, symbol := t.symbol, description := t.description,
        image := logoResult.publicURL,
        externalUrl := t.website.getD "",
        filesUri := logoResult.publicURL,
        filesType := logoInfo.mime,
        category := logoInfo.category }
    let metadataPath := "./temp/metadata_" ++ userId ++ "_" ++ toString now ++ ".json"
    let tempFiles1 := tempFiles ++ [metadataPath]
    let metaSpec : FileSpec :=
      ⟨true, metadataSize, ".json", "metadata_" ++ userId ++ ".json"⟩
    match uploadFileWithUserTracking db1 metaSpec userId ipAddress metaOutcome sid2 now with
    | (.error e, db2) => (.error e, db2, tempFiles1.erase metadataPath)
    | (.ok metadataResult, db2) =>
      (.ok { logoURL := logoResult.publicURL,
             metadataURL := metadataResult.publicURL,
             logoTxId := logoResult.transactionId,
             metadataTxId := metadataResult.transactionId,
             logoType := logoInfo.mime,
             metadata := metadata },
       db2, tempFiles1.erase metadataPath)

end MultiUserService

namespace TokenCreator4

/-- The size-limit environment of src/unnamed/part_004 (lines 90-94):
`MAX_UPLOAD_SIZE`, `MAX_IMAGE_SIZE`, `MAX_VIDEO_SIZE`, `MAX_AUDIO_SIZE`,
each independently configurable. -/
structure Limits where
  maxUploadSize : Nat
  maxImageSize : Nat
  maxVideoSize : Nat
  maxAudioSize : Nat
deriving Repr, DecidableEq

/-- The `.env` defaults of part_004: 2MB / 2MB / 10MB / 5MB. -/
def defaultLimits : Limits := ⟨2097152, 2097152, 10485760, 5242880⟩

/-- Entry of the `FILE_TYPES` registry of part_004 (lines 99-121):
`{mime, type, category}`. -/
structure TypeInfo where
  mime : String
  type : String
  category : String
deriving Repr, DecidableEq

/-- `FILE_TYPES` (part_004 lines 99-121). -/
def FILE_TYPES : List (String × TypeInfo) :=
  [ (".jpg",  ⟨"image/jpeg", "image/jpeg", "image"⟩),
    (".jpeg", ⟨"image/jpeg", "image/jpeg", "image"⟩),
    (".png",  ⟨"image/png", "image/png", "image"⟩),
    (".gif",  ⟨"image/gif", "image/gif", "image"⟩),
    (".webp", ⟨"image/webp", "image/webp", "image"⟩),
    (".svg",  ⟨"image/svg+xml", "image/svg+xml", "image"⟩),
    (".bmp",  ⟨"image/bmp", "image/bmp", "image"⟩),
    (".mp4",  ⟨"video/mp4", "video/mp4", "video"⟩),
    (".mov",  ⟨"video/quicktime", "video/quicktime", "video"⟩),
    (".webm", ⟨"video/webm", "video/webm", "video"⟩),
    (".mp3",  ⟨"audio/mpeg", "audio/mpeg", "audio"⟩),
    (".wav",  ⟨"audio/wav", "audio/wav", "audio"⟩),
    (".flac", ⟨"audio/flac", "audio/flac", "audio"⟩),
    (".json", ⟨"application/json", "application/json", "document"⟩) ]

/-- The per-category effective ceiling (part_004 lines 149-163): the
`switch` applying `Math.min` of the category ceiling and the global
maximum, with the global maximum alone for the default (document) case. -/
def maxAllowedSize (l : Limits) (category : String) : Nat :=
  if category = "image" then min l.maxImageSize l.maxUploadSize
  else if category = "video" then min l.maxVideoSize l.maxUploadSize
  else if category = "audio" then min l.maxAudioSize l.maxUploadSize
  else l.maxUploadSize

/-- Successful result of `validateAndDetectFile`. -/
structure FileInfo where
  size : Nat
  type : TypeInfo
  category : String
  maxAllowed : Nat
deriving Repr, DecidableEq

/-- `validateAndDetectFile(filePath)` (part_004 lines 135-179): existence,
registry lookup, then `stats.size > maxAllowedSize` (strict) throws the
too-large error.  There is no empty-file check in this variant. -/
def validateAndDetectFile (l : Limits) (f : FileSpec) :
    Except ValidationError FileInfo :=
  if ¬ f.fileExists then .error .NotFound
  else
    match lookupKey FILE_TYPES f.ext with
    | none => .error .UnsupportedType
    | some ti =>
      let maxAllowed := maxAllowedSize l ti.category
      if f.size > maxAllowed then .error (.TooLarge f.size maxAllowed)
      else .ok ⟨f.size, ti, ti.category, maxAllowed⟩

/-- Failures of part_004's `uploadFile`/`createTokenAssets` (the latter
returns them as `{success: false, error}`). -/
inductive TCError where
  | validation (e : ValidationError)
  | remote
deriving Repr, DecidableEq

/-- Successful result of part_004's `uploadFile` (lines 182-235). -/
structure UploadResult where
  transactionId : String
  publicURL : String
  fileName : String
  fileSize : Nat
  contentType : String
  category : String
deriving Repr, DecidableEq

/-- `uploadFile(filePath, customTags)` (part_004 lines 182-235): validate
with the size policy, then the raced remote upload via the cached
uploader; on success derive the public URL from the receipt id. -/
def uploadFile (l : Limits) (f : FileSpec) (outcome : UpOutcome) :
    Except TCError UploadResult :=
  match validateAndDetectFile l f with
  | .error e => .error (.validation e)
  | .ok info =>
    match outcome with
    | .err => .error .remote
    | .ok txid =>
      .ok ⟨txid, "https://gateway.irys.xyz/" ++ txid, f.baseName, info.size,
           info.type.type, info.category⟩

/-- Successful result of part_004's `createTokenAssets`, including the
metadata document it wrote and uploaded. -/
structure TokenResult where
  logoURL : String
  metadataURL : String
  logoTxId : String
  metadataTxId : String
  logoType : String
  category : String
  metadata : IrysService.MetadataDoc
deriving Repr, DecidableEq

/-- `createTokenAssets(tokenData)` (part_004 lines 238-321): validate the
logo; build the metadata document with `files[0].type := logoInfo.type.type`
(dynamic); upload the logo; fill in the logo URL; write the document to
`./temp_metadata_<now>.json`; upload it; `fs.unlinkSync(metadataPath)`
runs only on the success path — the catch returns `{success: false}`
without deleting the file, so a failure after the write leaves it on
disk. -/
def createTokenAssets (l : Limits) (tempFiles : List String)
    (t : IrysService.TokenInput) (logo : FileSpec)
    (logoOutcome metaOutcome : UpOutcome) (metadataSize : Nat) (now : Int) :
    Except TCError TokenResult × List String :=
  match validateAndDetectFile l logo with
  | .error e => (.error (.validation e), tempFiles)
  | .ok logoInfo =>
    match uploadFile l logo logoOutcome with
    | .error e => (.error e, tempFiles)
    | .ok logoResult =>
      let metadata : IrysService.MetadataDoc :=
        { name := t.name, symbol := t.symbol, description := t.description,
          image := logoResult.publicURL,
          externalUrl := t.website.getD "",
          filesUri := logoResult.publicURL,
          filesType := logoInfo.type.type,
          category := logoInfo.category }
      let metadataPath := "./temp_metadata_" ++ toString now ++ ".json"
      let tempFiles1 := tempFiles ++ [metadataPath]
      let metaSpec : FileSpec :=
        ⟨true, metadataSize, ".json", "temp_metadata_" ++ toString now ++ ".json"⟩
      match uploadFile l metaSpec metaOutcome with
      | .error e => (.error e, tempFiles1)
      | .ok metadataResult =>
        (.ok { logoURL := logoResult.publicURL,
               metadataURL := metadataResult.publicURL,
               logoTxId := logoResult.transactionId,
               metadataTxId := metadataResult.transactionId,
               logoType := logoInfo.type.type,
               category := logoInfo.category,
               metadata := metadata },
         tempFiles1.erase metadataPath)

end TokenCreator4

namespace TokenCreator3

/-- `contentTypeMap` of the optimized uploader (src/unnamed/part_001,
second module, lines 417-420). -/
def contentTypeMap : List (String × String) :=
  [ (".jpg", "image/jpeg"), (".jpeg", "image/jpeg"), (".png", "image/png"),
    (".gif", "image/gif"), (".json", "application/json"), (".txt", "text/plain") ]

/-- `getContentType(ext)` (same module, line 422): registry hit or
`application/octet-stream`. -/
def getContentType (ext : String) : String :=
  (lookupKey contentTypeMap ext).getD "application/octet-stream"

/-- Failures of `fastUpload` (validation or remote). -/
inductive FUError where
  | validation (e : ValidationError)
  | remote
deriving Repr, DecidableEq

/-- Successful result of `fastUpload`. -/
structure FastResult where
  transactionId : String
  publicURL : String
  fileName : String
  fileSize : Nat
deriving Repr, DecidableEq

/-- `validateFile(filePath)` of the optimized uploader (lines 359-370):
existence, then a flat 10 MB limit (`10 * 1024 * 1024`, strict).  No
extension or empty-file check. -/
def validateFile (f : FileSpec) : Except FUError Nat :=
  if ¬ f.fileExists then .error (.validation .NotFound)
  else if f.size > 10 * 1024 * 1024 then
    .error (.validation (.TooLarge f.size (10 * 1024 * 1024)))
  else .ok f.size

/-- `fastUpload(filePath, customTags)` (lines 373-414): pre-validate, use
the cached uploader, tag `Content-Type` with `getContentType(ext)`, and
upload; on success derive the public URL from the receipt id. -/
def fastUpload (f : FileSpec) (outcome : UpOutcome) :
    Except FUError FastResult :=
  match validateFile f with
  | .error e => .error e
  | .ok size =>
    match outcome with
    | .err => .error .remote
    | .ok txid =>
      .ok ⟨txid, "https://gateway.irys.xyz/" ++ txid, f.baseName, size⟩

/-- Successful result of `uploadTokenAssets`, including the final
metadata document it wrote and uploaded. -/
structure TokenResult where
  logoURL : String
  metadataURL : String
  logoTxId : String
  metadataTxId : String
  metadata : IrysService.MetadataDoc
deriving Repr, DecidableEq

/-- `uploadTokenAssets(tokenData)` (src/unnamed/part_003 lines 5-71).
Step 1 builds the metadata document with the **fixed** entries
`files[0].type = "image/png"` and `category = "image"` and writes it to
`./temp_metadata.json` before any upload; step 2 uploads the logo; step 3
rewrites the document with the logo URL (`image` and `files[0].uri` only
— the type is never updated); step 4 uploads the document;
`fs.unlinkSync` runs only on the success path, and the catch re-throws
without deleting the file, so any failure after step 1 leaves it on
disk. -/
def uploadTokenAssets (tempFiles : List String) (t : IrysService.TokenInput)
    (logo : FileSpec) (logoOutcome metaOutcome : UpOutcome)
    (metadataSize : Nat) : Except FUError TokenResult × List String :=
  let metadataPath := "./temp_metadata.json"
  let tempFiles1 := tempFiles ++ [metadataPath]
  match fastUpload logo logoOutcome with
  | .error e => (.error e, tempFiles1)
  | .ok logoResult =>
    let metadata : IrysService.MetadataDoc :=
      { name := t.name, symbol := t.symbol, description := t.description,
        image := logoResult.publicURL,
        externalUrl := t.website.getD "",
        filesUri := logoResult.publicURL,
        filesType := "image/png",
        category := "image" }
    let metaSpec : FileSpec :=
      ⟨true, metadataSize, ".json", "temp_metadata.json"⟩
    match fastUpload metaSpec metaOutcome with
    | .error e => (.error e, tempFiles1)
    | .ok metadataResult =>
      (.ok { logoURL := logoResult.publicURL,
             metadataURL := metadataResult.publicURL,
             logoTxId := logoResult.transactionId,
             metadataTxId := metadataResult.transactionId,
             metadata := metadata },
       tempFiles1.erase metadataPath)

end TokenCreator3

/-- C4 counterexample.  In src/src/api-production-final.js the pool has no
waiting queue: an acquirer that finds the pool exhausted is told to poll
(`retryLater`, a 100 ms sleep plus retry in the source), and
`releaseConnection` unconditionally parks the released handle in the idle
array — it is never handed directly to the suspended acquirer.  Concretely,
with capacity 1 exhausted, an acquire attempt suspends (polls), and a
subsequent release places the handle in the idle set anyway. -/
theorem c4_counterexample :
    (SimplePool.getConnection ⟨[], 1, 1⟩ true 9).2 = AcquireResult.retryLater ∧
    (SimplePool.releaseConnection ⟨[], 1, 1⟩ 7).connectionPool = [7] := by
  constructor <;> rfl

/-- C4 (amended): in `ConnectionPool` (part_001) and
`UltraFastConnectionPool` (multi-user-api.js), `release` with a non-empty
waiting queue hands the handle to the queue head (FIFO, exactly one waiter
woken, the idle pool untouched) and only with an empty queue parks it in
idle; in the api-production-final.js pool, `release` always parks the
handle in idle and waiters poll for it. -/
theorem c4_release_handoff :
    (∀ (s : ConnectionPool.State) (h w : Nat) (rest : List Nat),
      s.waitingQueue = w :: rest →
        ConnectionPool.releaseConnection s h =
          ({ s with waitingQueue := rest }, some w)) ∧
    (∀ (s : ConnectionPool.State) (h : Nat),
      s.waitingQueue = [] →
        ConnectionPool.releaseConnection s h =
          ({ s with pool := s.pool ++ [h] }, none)) ∧
    (∀ (s : UltraFastConnectionPool.State) (h w : Nat) (rest : List Nat),
      s.waiting = w :: rest →
        UltraFastConnectionPool.releaseConnection s h =
          ({ s with active := s.active.erase h ++ [h], waiting := rest },
           some w)) ∧
    (∀ (s : UltraFastConnectionPool.State) (h : Nat),
      s.waiting = [] →
        UltraFastConnectionPool.releaseConnection s h =
          ({ s with active := s.active.erase h, pool := s.pool ++ [h] },
           none)) ∧
    (∀ (s : SimplePool.State) (h : Nat),
      SimplePool.releaseConnection s h =
        { s with connectionPool := s.connectionPool ++ [h] }) := by
  refine ⟨?_, ?_, ?_, ?_, ?_⟩
  · intro s h w rest hq
    simp [ConnectionPool.releaseConnection, hq]
  · intro s h hq
    simp [ConnectionPool.releaseConnection, hq]
  · intro s h w rest hq
    simp [UltraFastConnectionPool.releaseConnection, hq]
  · intro s h hq
    simp [UltraFastConnectionPool.releaseConnection, hq]
  · intro s h
    rfl

/-- C4 witness: concrete FIFO hand-off for both queue-based pools. -/
theorem c4_witness :
    ConnectionPool.releaseConnection ⟨[], 2, 2, [4, 5]⟩ 9 =
      (⟨[], 2, 2, [5]⟩, some 4) ∧
    UltraFastConnectionPool.releaseConnection ⟨[], [9], [4, 5], 2, 2, 0, 0⟩ 9 =
      (⟨[], [9], [5], 2, 2, 0, 0⟩, some 4) := by
  exact ⟨(c4_release_handoff.1 ⟨[], 2, 2, [4, 5]⟩ 9 4 [5] rfl),
         (c4_release_handoff.2.2.1 ⟨[], [9], [4, 5], 2, 2, 0, 0⟩ 9 4 [5] rfl)⟩

/-- C9 counterexample.  In part_001's `ConnectionPool.getConnection`,
`activeConnections` is incremented *before* the awaited construction and
never rolled back on failure (there is no catch, and no error counter
exists in this pool).  With capacity 1, one failed construction leaves
`activeConnections = 1`, so the next acquire — even with a working
constructor — suspends forever instead of retrying construction: the
slot is permanently consumed. -/
theorem c9_counterexample :
    (ConnectionPool.getConnection ⟨[], 0, 1, []⟩ false 5 7).1.activeConnections = 1 ∧
    (ConnectionPool.getConnection ⟨[], 0, 1, []⟩ false 5 7).2 = AcquireResult.failed ∧
    (ConnectionPool.getConnection
        (ConnectionPool.getConnection ⟨[], 0, 1, []⟩ false 5 7).1
        true 6 8).2 = AcquireResult.suspended := by
  refine ⟨rfl, rfl, rfl⟩

/-- C9 (amended): in `UltraFastConnectionPool` a construction failure
increments `stats.errors`, propagates (`failed`), changes neither `pool`
nor `active`, and the very next acquire on the resulting state can again
attempt construction (it is not suspended); in part_001's
`ConnectionPool` the failure leaves `activeConnections` permanently
incremented, consuming a slot. -/
theorem c9_construction_failure :
    ∀ (s : UltraFastConnectionPool.State) (nh w nh' w' : Nat),
      s.pool = [] → s.active.length < s.maxConnections →
      UltraFastConnectionPool.getConnection s false nh w =
        ({ s with errors := s.errors + 1 }, AcquireResult.failed) ∧
      (UltraFastConnectionPool.getConnection
          { s with errors := s.errors + 1 } true nh' w').2 =
        AcquireResult.got nh' := by
  intro s nh w nh' w' hpool hlt
  constructor
  · simp [UltraFastConnectionPool.getConnection, hpool, hlt]
  · simp [UltraFastConnectionPool.getConnection, hpool, hlt]

/-- C9 witness: concrete failed construction on an empty pool of capacity
10, followed by a successful retry. -/
theorem c9_witness :
    UltraFastConnectionPool.getConnection ⟨[], [], [], 10, 0, 0, 0⟩ false 5 7 =
      (⟨[], [], [], 10, 0, 0, 1⟩, AcquireResult.failed) ∧
    (UltraFastConnectionPool.getConnection ⟨[], [], [], 10, 0, 0, 1⟩ true 6 8).2 =
      AcquireResult.got 6 := by
  exact c9_construction_failure ⟨[], [], [], 10, 0, 0, 0⟩ 5 7 6 8 rfl (by decide)

/-- C5: `ProductionDatabase.recordTokenAsset` commits a TokenAsset row on
an empty ledger — both referenced Upload transaction ids ("L1", "M1") are
absent from `uploads`, yet the insert succeeds and nothing like a
`DanglingReference` failure exists (the operation is not even fallible):
the schema's FOREIGN KEYs are never enforced because the sqlite3
connection never runs `PRAGMA foreign_keys = ON`, and the caller fires
`recordTokenAsset` concurrently with the two `recordUpload`s via
`Promise.all`. -/
theorem c5_dangling_token_asset :
    (ProductionDatabase.recordTokenAsset ⟨[], [], [], []⟩ "w1"
        ⟨"Tok", "TK", "meta"⟩ "L1" "uL" "M1" "uM" none).tokenAssets =
      [⟨"w1", "Tok", "TK", "L1", "uL", "M1", "uM", "meta", none⟩] ∧
    (ProductionDatabase.recordTokenAsset ⟨[], [], [], []⟩ "w1"
        ⟨"Tok", "TK", "meta"⟩ "L1" "uL" "M1" "uM" none).uploads = [] := by
  constructor <;> rfl

/-- C2: all three rate-limit implementations count the identity's entries
newer than `now - windowMs`; when the count reaches the ceiling they deny
with `allowed=false, remaining=0, resetTime=now+windowMs` and append no
entry; otherwise they append exactly one `(timestamp, sourceAddr)` entry
for the identity and admit with `remaining = ceiling - count - 1`. -/
theorem c2_rate_limit_semantics :
    (∀ (st : List (String × List JSONUserManager.RateEntry)) (id ip : String)
       (now w : Int) (m : Nat),
      (JSONUserManager.checkRateLimit st id ip now w m).2 =
        (if (((lookupKey st id).getD []).filter
              (fun r => r.timestamp > now - w)).length ≥ m then
          ⟨false, 0, now + w⟩
        else
          ⟨true, (m : Int) -
            (((lookupKey st id).getD []).filter
              (fun r => r.timestamp > now - w)).length - 1, now + w⟩) ∧
      lookupKey (JSONUserManager.checkRateLimit st id ip now w m).1 id =
        some (if (((lookupKey st id).getD []).filter
                  (fun r => r.timestamp > now - w)).length ≥ m then
          ((lookupKey st id).getD []).filter (fun r => r.timestamp > now - w)
        else
          ((lookupKey st id).getD []).filter (fun r => r.timestamp > now - w)
            ++ [⟨now, ip⟩])) ∧
    (∀ (rows : List UserManager.RateRow) (id ip : String) (now w : Int) (m : Nat),
      UserManager.checkRateLimit rows id ip now w m =
        (if (rows.filter (fun r => r.userId = id ∧ r.requestTime > now - w)).length
            < m then
          (rows ++ [⟨id, now, ip⟩],
           ⟨true, (m : Int) -
             (rows.filter
               (fun r => r.userId = id ∧ r.requestTime > now - w)).length - 1,
            now + w⟩)
        else
          (rows, ⟨false, 0, now + w⟩))) ∧
    (∀ (rows : List ProductionDatabase.RateRow) (wa ip : String) (now : Int),
      ProductionDatabase.checkRateLimit rows wa ip now =
        (if (rows.filter (fun r =>
              r.walletAddress = wa ∧
              r.requestTime > now - ProductionDatabase.RATE_LIMIT_WINDOW)).length
            < ProductionDatabase.RATE_LIMIT_PER_MINUTE then
          (rows ++ [⟨wa, now, ip⟩],
           ⟨true, (ProductionDatabase.RATE_LIMIT_PER_MINUTE : Int) -
             (rows.filter (fun r =>
               r.walletAddress = wa ∧
               r.requestTime > now - ProductionDatabase.RATE_LIMIT_WINDOW)).length
             - 1, now + ProductionDatabase.RATE_LIMIT_WINDOW⟩)
        else
          (rows, ⟨false, 0, now + ProductionDatabase.RATE_LIMIT_WINDOW⟩))) := by
  refine ⟨?_, ?_, ?_⟩
  · intro st id ip now w m
    by_cases hc : (((lookupKey st id).getD []).filter
        (fun r => r.timestamp > now - w)).length ≥ m
    · simp [JSONUserManager.checkRateLimit, hc, lookupKey_setKey_self]
    · simp [JSONUserManager.checkRateLimit, hc, lookupKey_setKey_self]
  · intro rows id ip now w m
    by_cases hc : (rows.filter
        (fun r => r.userId = id ∧ r.requestTime > now - w)).length < m
    · simp [UserManager.checkRateLimit, hc]
    · simp [UserManager.checkRateLimit, hc]
  · intro rows wa ip now
    by_cases hc : (rows.filter (fun r =>
        r.walletAddress = wa ∧
        r.requestTime > now - ProductionDatabase.RATE_LIMIT_WINDOW)).length
        < ProductionDatabase.RATE_LIMIT_PER_MINUTE
    · simp [ProductionDatabase.checkRateLimit, hc]
    · simp [ProductionDatabase.checkRateLimit, hc]

/-- C7 counterexample.  The boundary is exclusive, not inclusive: a file
whose size is exactly the effective limit (an image of exactly
`min(MAX_IMAGE_SIZE, MAX_UPLOAD_SIZE) = 2097152` bytes under the default
configuration) passes `validateAndDetectFile` (the check is
`stats.size > maxAllowedSize`), whereas the claim says a file at the
limit fails with TooLarge. -/
theorem c7_counterexample :
    TokenCreator4.validateAndDetectFile TokenCreator4.defaultLimits
        ⟨true, 2097152, ".png", "logo.png"⟩ =
      .ok ⟨2097152, ⟨"image/png", "image/png", "image"⟩, "image", 2097152⟩ := by
  rfl

/-- C7 (amended): for an existing file of a supported type, part_004's
`validateAndDetectFile` succeeds iff the size is at most the effective
limit and fails with TooLarge iff the size strictly exceeds it (exclusive
boundary), where the effective limit is the minimum of the per-category
ceiling and the global maximum for image/video/audio; the production
`validateFile` applies the same exclusive boundary against its
per-extension `maxSize` for non-empty files. -/
theorem c7_size_validation :
    (∀ (l : TokenCreator4.Limits) (f : FileSpec) (ti : TokenCreator4.TypeInfo),
      f.fileExists = true →
      lookupKey TokenCreator4.FILE_TYPES f.ext = some ti →
      (f.size ≤ TokenCreator4.maxAllowedSize l ti.category →
        TokenCreator4.validateAndDetectFile l f =
          .ok ⟨f.size, ti, ti.category, TokenCreator4.maxAllowedSize l ti.category⟩) ∧
      (f.size > TokenCreator4.maxAllowedSize l ti.category →
        TokenCreator4.validateAndDetectFile l f =
          .error (.TooLarge f.size (TokenCreator4.maxAllowedSize l ti.category)))) ∧
    (∀ l : TokenCreator4.Limits,
      TokenCreator4.maxAllowedSize l "image" = min l.maxImageSize l.maxUploadSize ∧
      TokenCreator4.maxAllowedSize l "video" = min l.maxVideoSize l.maxUploadSize ∧
      TokenCreator4.maxAllowedSize l "audio" = min l.maxAudioSize l.maxUploadSize) ∧
    (∀ (f : FileSpec) (ti : IrysService.TypeInfo),
      f.fileExists = true →
      lookupKey IrysService.SUPPORTED_TYPES f.ext = some ti →
      0 < f.size →
      (f.size ≤ ti.maxSize →
        IrysService.validateFile f = .ok ⟨f.size, ti, f.baseName⟩) ∧
      (f.size > ti.maxSize →
        IrysService.validateFile f = .error (.TooLarge f.size ti.maxSize))) := by
  refine ⟨?_, ?_, ?_⟩
  · intro l f ti hex hti
    constructor
    · intro hle
      simp [TokenCreator4.validateAndDetectFile, hex, hti, Nat.not_lt.mpr hle]
    · intro hgt
      simp [TokenCreator4.validateAndDetectFile, hex, hti, hgt]
  · intro l
    refine ⟨rfl, ?_, ?_⟩ <;> rfl
  · intro f ti hex hti hpos
    constructor
    · intro hle
      simp [IrysService.validateFile, hex, hti, Nat.not_lt.mpr hle,
            Nat.pos_iff_ne_zero.mp hpos]
    · intro hgt
      simp [IrysService.validateFile, hex, hti, hgt]

/-- C7 witness: a 100-byte PNG under the default limits passes both
validators with the expected detected type and effective limit. -/
theorem c7_witness :
    TokenCreator4.validateAndDetectFile TokenCreator4.defaultLimits
        ⟨true, 100, ".png", "a.png"⟩ =
      .ok ⟨100, ⟨"image/png", "image/png", "image"⟩, "image", 2097152⟩ ∧
    IrysService.validateFile ⟨true, 100, ".png", "a.png"⟩ =
      .ok ⟨100, ⟨"image/png", "image", 2097152⟩, "a.png"⟩ := by
  constructor
  · exact (c7_size_validation.1 TokenCreator4.defaultLimits
      ⟨true, 100, ".png", "a.png"⟩ ⟨"image/png", "image/png", "image"⟩
      rfl rfl).1 (by decide)
  · exact (c7_size_validation.2.2 ⟨true, 100, ".png", "a.png"⟩
      ⟨"image/png", "image", 2097152⟩ rfl rfl (by decide)).1 (by decide)

/-- C3 counterexample.  In the user-database.js backend, `upload_history`
declares `transaction_id TEXT NOT NULL` with no UNIQUE constraint, so a
`recordUpload` whose transaction id already exists in the ledger does not
fail: the duplicate row is inserted and the user's statistics are bumped
a second time. -/
theorem c3_counterexample :
    ((UserManager.recordUpload
        (UserManager.recordUpload
          (UserManager.createOrGetUser ⟨[], [], [], []⟩ "w1" none 0)
          "w1" ⟨"TX1", "a.png", 100, "image/png", "u", 0⟩ 1)
        "w1" ⟨"TX1", "a.png", 100, "image/png", "u", 0⟩ 2).uploadHistory.map
          (·.transactionId)) = ["TX1", "TX1"] ∧
    ((UserManager.recordUpload
        (UserManager.recordUpload
          (UserManager.createOrGetUser ⟨[], [], [], []⟩ "w1" none 0)
          "w1" ⟨"TX1", "a.png", 100, "image/png", "u", 0⟩ 1)
        "w1" ⟨"TX1", "a.png", 100, "image/png", "u", 0⟩ 2).userSessions.map
          (·.totalUploads)) = [2] := by
  constructor <;> rfl

/-- C3 (amended): in the production backend
(`ProductionDatabase.recordUpload`, `uploads.transaction_id UNIQUE`), a
call whose transaction id already exists fails with DuplicateTransaction
and changes nothing, and a successful call inserts the Upload row and
bumps the identity's upload count and byte total in the same atomic step;
the user-database.js backend enforces no such uniqueness (see the
counterexample). -/
theorem c3_record_upload :
    ∀ (db : ProductionDatabase.DB) (w : String)
      (d : ProductionDatabase.UploadData) (mj tj : Option String),
      (db.uploads.any (·.transactionId = d.transactionId) = true →
        ProductionDatabase.recordUpload db w d mj tj =
          .error .DuplicateTransaction) ∧
      (∀ db', ProductionDatabase.recordUpload db w d mj tj = .ok db' →
        db'.uploads = db.uploads ++
          [⟨w, d.transactionId, d.fileName, d.fileSize, d.contentType,
            d.category, d.publicURL, mj, d.uploadTime, tj, d.sessionId⟩] ∧
        db'.users = db.users.map (fun u =>
          if u.walletAddress = w then
            { u with totalUploads := u.totalUploads + 1,
                     totalSizeBytes := u.totalSizeBytes + d.fileSize }
          else u) ∧
        db'.tokenAssets = db.tokenAssets ∧
        db'.rateLimits = db.rateLimits) := by
  intro db w d mj tj
  constructor
  · intro hdup
    simp [ProductionDatabase.recordUpload, hdup]
  · intro db' hok
    by_cases hdup : db.uploads.any (·.transactionId = d.transactionId) = true
    · simp [ProductionDatabase.recordUpload, hdup] at hok
    · simp [ProductionDatabase.recordUpload, hdup] at hok
      subst hok
      exact ⟨rfl, rfl, rfl, rfl⟩

/-- C3 witness: a concrete duplicate is rejected, and a concrete fresh
record lands with the statistics bump in one step. -/
theorem c3_witness :
    ProductionDatabase.recordUpload
        ⟨[], [⟨"w1", "TX1", "a", 1, "t", "c", "u", none, 0, none, none⟩], [], []⟩
        "w1" ⟨"TX1", "a", 1, "t", "c", "u", 0, none⟩ none none =
      .error .DuplicateTransaction ∧
    (⟨[⟨"w1", 0, 0, 1, 5, "active"⟩],
      [⟨"w1", "TX2", "a", 5, "t", "c", "u", none, 0, none, none⟩], [], []⟩ :
        ProductionDatabase.DB).uploads =
      [] ++ [⟨"w1", "TX2", "a", 5, "t", "c", "u", none, 0, none, none⟩] := by
  constructor
  · exact (c3_record_upload
      ⟨[], [⟨"w1", "TX1", "a", 1, "t", "c", "u", none, 0, none, none⟩], [], []⟩
      "w1" ⟨"TX1", "a", 1, "t", "c", "u", 0, none⟩ none none).1 (by rfl)
  · exact ((c3_record_upload ⟨[⟨"w1", 0, 0, 0, 0, "active"⟩], [], [], []⟩
      "w1" ⟨"TX2", "a", 5, "t", "c", "u", 0, none⟩ none none).2
      ⟨[⟨"w1", 0, 0, 1, 5, "active"⟩],
       [⟨"w1", "TX2", "a", 5, "t", "c", "u", none, 0, none, none⟩], [], []⟩
      (by rfl)).1

namespace JSONUserManager

theorem sumSizes_append (l : List UploadRecord) (r : UploadRecord) :
    sumSizes (l ++ [r]) = sumSizes l + r.fileSize := by
  simp [sumSizes]

theorem statsOk_of_eq (st st' : Store) (k : String)
    (hu : lookupKey st'.users k = lookupKey st.users k)
    (hq : lookupKey st'.uploads k = lookupKey st.uploads k)
    (h : statsOk st k) : statsOk st' k := by
  unfold statsOk at h ⊢
  rw [hu, hq]
  exact h

theorem recordUpload_eq_of_some (st : Store) (id : String) (d : UploadData)
    (now : Int) (u : User) (hu : lookupKey st.users id = some u) :
    recordUpload st id d now =
      { users := setKey st.users id
          { u with totalUploads := u.totalUploads + 1,
                   totalSizeBytes := u.totalSizeBytes + d.fileSize,
                   lastActivity := now },
        uploads := setKey st.uploads id ((lookupKey st.uploads id).getD [] ++
          [⟨d.transactionId, d.fileName, d.fileSize, d.contentType, d.publicURL,
            d.uploadTime, now⟩]) } := by
  simp [recordUpload, hu]

theorem recordUpload_eq_of_none (st : Store) (id : String) (d : UploadData)
    (now : Int) (hu : lookupKey st.users id = none) :
    recordUpload st id d now =
      { users := st.users,
        uploads := setKey st.uploads id ((lookupKey st.uploads id).getD [] ++
          [⟨d.transactionId, d.fileName, d.fileSize, d.contentType, d.publicURL,
            d.uploadTime, now⟩]) } := by
  simp [recordUpload, hu]

theorem createOrGetUser_strongInv (seen : List String) (st : Store)
    (id : String) (em : Option String) (now : Int) (h : StrongInv seen st) :
    StrongInv (id :: seen) (createOrGetUser st id em now) := by
  obtain ⟨hinv, hup, hseen⟩ := h
  cases hu : lookupKey st.users id with
  | none =>
    have hset := setKey_of_lookupKey_none st.users id
      (⟨id, em, now, now, 0, 0, "active"⟩ : User) hu
    have hstate : createOrGetUser st id em now =
        { st with users := st.users ++ [((id : String), (⟨id, em, now, now, 0, 0, "active"⟩ : User))] } := by
      simp [createOrGetUser, hu, hset]
    rw [hstate]
    refine ⟨?_, ?_, ?_⟩
    · intro k hk
      simp at hk
      rcases hk with hk | hk
      · -- an identity that already had a user record
        have hk' : k ∈ st.users.map Prod.fst := by
          obtain ⟨b, hb⟩ := hk
          exact List.mem_map.mpr ⟨(k, b), hb, rfl⟩
        obtain ⟨u, hu'⟩ := Option.isSome_iff_exists.mp
          (lookupKey_isSome_of_mem_keys st.users k hk')
        refine statsOk_of_eq st _ k ?_ rfl (hinv k hk')
        exact lookupKey_append_left st.users _ k u hu' |>.trans hu'.symm
      · -- the freshly created identity: zero statistics, no uploads entry
        subst hk
        have hl : lookupKey
            (st.users ++ [((k : String), (⟨k, em, now, now, 0, 0, "active"⟩ : User))]) k
            = some ⟨k, em, now, now, 0, 0, "active"⟩ := by
          rw [lookupKey_append_right st.users _ k hu]
          simp [lookupKey]
        unfold statsOk
        simp only [hl]
        rw [hup k hu]
        simp [sumSizes]
    · intro k hk
      exact hup k (lookupKey_none_of_append st.users _ k hk)
    · intro k hk
      simp at hk
      rcases hk with hk | hk
      · subst hk
        rw [lookupKey_append_right st.users _ k hu]
        simp [lookupKey]
      · obtain ⟨u, hu'⟩ := Option.isSome_iff_exists.mp (hseen k hk)
        simp [lookupKey_append_left st.users _ k u hu']
  | some u =>
    have hstate : createOrGetUser st id em now =
        { st with users := setKey st.users id { u with lastActivity := now } } := by
      simp [createOrGetUser, hu]
    rw [hstate]
    refine ⟨?_, ?_, ?_⟩
    · intro k hk
      have hkeys := keys_setKey_of_lookupKey_some st.users id
        { u with lastActivity := now } u hu
      simp only [hkeys] at hk
      by_cases hkid : k = id
      · subst hkid
        have hO := hinv k (mem_keys_of_lookupKey_some st.users k u hu)
        unfold statsOk at hO ⊢
        simp only [lookupKey_setKey_self, hu] at hO ⊢
        exact hO
      · refine statsOk_of_eq st _ k ?_ rfl (hinv k hk)
        exact lookupKey_setKey_ne st.users id k _ (fun he => hkid he.symm)
    · intro k hk
      by_cases hkid : k = id
      · subst hkid
        rw [lookupKey_setKey_self] at hk
        exact absurd hk (by simp)
      · rw [lookupKey_setKey_ne st.users id k _
          (fun he => hkid he.symm)] at hk
        exact hup k hk
    · intro k hk
      simp at hk
      rcases hk with hk | hk
      · subst hk; simp [lookupKey_setKey_self]
      · exact lookupKey_isSome_setKey st.users id k _ (hseen k hk)

theorem recordUpload_strongInv (seen : List String) (st : Store) (id : String)
    (d : UploadData) (now : Int) (h : StrongInv seen st)
    (hsome : (lookupKey st.users id).isSome) :
    StrongInv seen (recordUpload st id d now) := by
  obtain ⟨hinv, hup, hseen⟩ := h
  obtain ⟨u, hu⟩ := Option.isSome_iff_exists.mp hsome
  rw [recordUpload_eq_of_some st id d now u hu]
  refine ⟨?_, ?_, ?_⟩
  · intro k hk
    have hkeys := keys_setKey_of_lookupKey_some st.users id
      { u with totalUploads := u.totalUploads + 1,
               totalSizeBytes := u.totalSizeBytes + d.fileSize,
               lastActivity := now } u hu
    simp only [hkeys] at hk
    by_cases hkid : k = id
    · subst hkid
      have hO := hinv k (mem_keys_of_lookupKey_some st.users k u hu)
      unfold statsOk at hO ⊢
      simp only [hu] at hO
      simp only [lookupKey_setKey_self]
      rw [Option.getD_some]
      rw [sumSizes_append]
      simp [hO.1, hO.2]
    · have hnu := lookupKey_setKey_ne st.users id k
        { u with totalUploads := u.totalUploads + 1,
                 totalSizeBytes := u.totalSizeBytes + d.fileSize,
                 lastActivity := now } (fun he => hkid he.symm)
      have hnq := lookupKey_setKey_ne st.uploads id k
        ((lookupKey st.uploads id).getD [] ++
          [⟨d.transactionId, d.fileName, d.fileSize, d.contentType, d.publicURL,
            d.uploadTime, now⟩]) (fun he => hkid he.symm)
      exact statsOk_of_eq st _ k hnu hnq (hinv k hk)
  · intro k hk
    by_cases hkid : k = id
    · subst hkid
      rw [lookupKey_setKey_self] at hk
      exact absurd hk (by simp)
    · rw [lookupKey_setKey_ne st.users id k _
        (fun he => hkid he.symm)] at hk
      rw [lookupKey_setKey_ne st.uploads id k _
        (fun he => hkid he.symm)]
      exact hup k hk
  · intro k hk
    exact lookupKey_isSome_setKey st.users id k _ (hseen k hk)

theorem run_inv_aux : ∀ (ops : List Op) (seen : List String) (st : Store),
    StrongInv seen st → disciplinedFrom seen ops = true →
    Inv (ops.foldl applyOp st) := by
  intro ops
  induction ops with
  | nil =>
    intro seen st h _
    exact h.1
  | cons op rest ih =>
    intro seen st h hd
    cases op with
    | create id em n =>
      simp only [disciplinedFrom] at hd
      exact ih (id :: seen) _ (createOrGetUser_strongInv seen st id em n h) hd
    | record id d n =>
      simp only [disciplinedFrom, Bool.and_eq_true, decide_eq_true_eq] at hd
      exact ih seen _
        (recordUpload_strongInv seen st id d n h (h.2.2 id hd.1)) hd.2

end JSONUserManager

/-- C10: in the JSON ledger backend, `recordUpload` for an identity with
no user record still appends the upload record but leaves `users`
untouched (no statistics update); consequently the statistics invariant —
every stored user's `totalUploads` equals the number of its stored Upload
records and `totalSizeBytes` the sum of their `fileSize`s — holds after
every operation sequence in which each `recordUpload` is preceded by a
`createOrGetUser` for that identity, and is broken by the sequence that
records an upload for "u" before creating "u". -/
theorem c10_json_stats_invariant :
    (∀ (st : JSONUserManager.Store) (id : String)
       (d : JSONUserManager.UploadData) (now : Int),
      lookupKey st.users id = none →
      (JSONUserManager.recordUpload st id d now).users = st.users ∧
      lookupKey (JSONUserManager.recordUpload st id d now).uploads id =
        some ((lookupKey st.uploads id).getD [] ++
          [⟨d.transactionId, d.fileName, d.fileSize, d.contentType, d.publicURL,
            d.uploadTime, now⟩])) ∧
    (∀ ops : List JSONUserManager.Op,
      JSONUserManager.disciplinedFrom [] ops = true →
      JSONUserManager.Inv (JSONUserManager.run ops)) ∧
    ¬ JSONUserManager.Inv (JSONUserManager.run
        [.record "u" ⟨"TX1", "a.png", 5, "image/png", "p", 0⟩ 0,
         .create "u" none 1]) := by
  refine ⟨?_, ?_, ?_⟩
  · intro st id d now hu
    rw [JSONUserManager.recordUpload_eq_of_none st id d now hu]
    exact ⟨rfl, lookupKey_setKey_self st.uploads id _⟩
  · intro ops hd
    have hinit : JSONUserManager.StrongInv [] ⟨[], []⟩ := by
      refine ⟨?_, ?_, ?_⟩
      · intro k hk; simp at hk
      · intro k _; rfl
      · intro k hk; simp at hk
    exact JSONUserManager.run_inv_aux ops [] ⟨[], []⟩ hinit hd
  · decide

/-- C10 witness: an undisciplined record leaves `users` untouched, and a
concrete disciplined sequence satisfies the invariant. -/
theorem c10_witness :
    (JSONUserManager.recordUpload ⟨[], []⟩ "u"
        ⟨"TX1", "a.png", 5, "image/png", "p", 0⟩ 0).users = [] ∧
    JSONUserManager.Inv (JSONUserManager.run
      [.create "u" none 0, .record "u" ⟨"TX1", "a.png", 5, "image/png", "p", 0⟩ 1]) := by
  exact ⟨(c10_json_stats_invariant.1 ⟨[], []⟩ "u"
            ⟨"TX1", "a.png", 5, "image/png", "p", 0⟩ 0 rfl).1,
         c10_json_stats_invariant.2.1 _ (by decide)⟩

theorem erase_append_singleton (ts : List String) (p : String) (h : p ∉ ts) :
    (ts ++ [p]).erase p = ts := by
  induction ts with
  | nil => simp
  | cons a rest ih =>
    simp only [List.mem_cons, not_or] at h
    simp only [List.cons_append, List.erase_cons]
    have hne : (a == p) = false := by
      simp
      exact fun he => h.1 he.symm
    rw [hne]
    simp [ih h.2]

/-- C1 counterexample.  In part_004's `createTokenAssets`, the temp
metadata file is written before the metadata upload, and the catch
returns `{success: false}` without deleting it: with the logo upload
succeeding and the metadata upload failing (remote error), the call
returns a failure with `./temp_metadata_7.json` still on disk. -/
theorem c1_counterexample :
    TokenCreator4.createTokenAssets TokenCreator4.defaultLimits []
        ⟨"Tok", "TK", "d", none⟩ ⟨true, 100, ".png", "logo.png"⟩
        (.ok "L1") .err 50 7 =
      (.error .remote, ["./temp_metadata_7.json"]) := by
  rfl

theorem ProductionDatabase.createOrUpdateUser_uploads
    (db : ProductionDatabase.DB) (w : String) (now : Int) :
    (ProductionDatabase.createOrUpdateUser db w now).uploads = db.uploads := by
  unfold ProductionDatabase.createOrUpdateUser
  split <;> rfl

theorem ProductionDatabase.createOrUpdateUser_tokenAssets
    (db : ProductionDatabase.DB) (w : String) (now : Int) :
    (ProductionDatabase.createOrUpdateUser db w now).tokenAssets =
      db.tokenAssets := by
  unfold ProductionDatabase.createOrUpdateUser
  split <;> rfl

theorem IrysService.uploadFile_err (f : FileSpec) (sid : String) :
    IrysService.uploadFile f .err sid =
      .error (match IrysService.validateFile f with
              | .error e => .validation e
              | .ok _ => .remote) := by
  unfold IrysService.uploadFile
  split <;> rfl

/-- Any production `createTokenAssets` run whose metadata upload fails
(`UpOutcome.err` for the second upload) ends in an error before any
ledger recording: `uploads` and `token_assets` are untouched. -/
theorem IrysService.createTokenAssets_metaErr (db : ProductionDatabase.DB)
    (ts : List String) (t : IrysService.TokenInput) (logo : FileSpec)
    (w ip : String) (lo : UpOutcome) (ms : Nat) (now : Int) :
    ((IrysService.createTokenAssets db ts t logo w ip lo .err ms now).1.isOk
        = false) ∧
    (IrysService.createTokenAssets db ts t logo w ip lo .err ms now).2.1.uploads
        = db.uploads ∧
    (IrysService.createTokenAssets db ts t logo w ip lo .err ms now).2.1.tokenAssets
        = db.tokenAssets := by
  unfold IrysService.createTokenAssets
  simp only []
  repeat' split
  all_goals first
    | (exfalso; simp_all [IrysService.uploadFile_err]; done)
    | (refine ⟨rfl, ?_, ?_⟩ <;>
        simp [ProductionDatabase.createOrUpdateUser_uploads,
              ProductionDatabase.createOrUpdateUser_tokenAssets])

/-- Any production `createTokenAssets` run whose logo upload fails ends in
an error before any ledger recording. -/
theorem IrysService.createTokenAssets_logoErr (db : ProductionDatabase.DB)
    (ts : List String) (t : IrysService.TokenInput) (logo : FileSpec)
    (w ip : String) (mo : UpOutcome) (ms : Nat) (now : Int) :
    ((IrysService.createTokenAssets db ts t logo w ip .err mo ms now).1.isOk
        = false) ∧
    (IrysService.createTokenAssets db ts t logo w ip .err mo ms now).2.1.uploads
        = db.uploads ∧
    (IrysService.createTokenAssets db ts t logo w ip .err mo ms now).2.1.tokenAssets
        = db.tokenAssets := by
  unfold IrysService.createTokenAssets
  simp only []
  repeat' split
  all_goals first
    | (exfalso; simp_all [IrysService.uploadFile_err]; done)
    | (refine ⟨rfl, ?_, ?_⟩ <;>
        simp [ProductionDatabase.createOrUpdateUser_uploads,
              ProductionDatabase.createOrUpdateUser_tokenAssets])

/-- C1 (amended): a failed run adds no Upload ledger row — the part_003
and part_004 pipelines perform no ledger writes at all, and in the
production pipeline the enumerated failures (rate-limit denial,
validation failure, remote error/timeout of either upload) leave
`uploads` and `token_assets` untouched; the temp metadata file is deleted
on every exit path of the production pipeline, but in part_004 (and
part_003) it is deleted only on the success path: a failure after it is
written returns with the file still on disk. -/
theorem c1_failure_side_effects :
    (∀ (l : TokenCreator4.Limits) (ts : List String) (t : IrysService.TokenInput)
       (logo : FileSpec) (lo mo : UpOutcome) (ms : Nat) (now : Int)
       (r : TokenCreator4.TokenResult),
      ("./temp_metadata_" ++ toString now ++ ".json") ∉ ts →
      (TokenCreator4.createTokenAssets l ts t logo lo mo ms now).1 = .ok r →
      (TokenCreator4.createTokenAssets l ts t logo lo mo ms now).2 = ts) ∧
    (∀ (l : TokenCreator4.Limits) (ts : List String) (t : IrysService.TokenInput)
       (logo : FileSpec) (tx : String) (ms : Nat) (now : Int)
       (info : TokenCreator4.FileInfo),
      TokenCreator4.validateAndDetectFile l logo = .ok info →
      ms ≤ l.maxUploadSize →
      TokenCreator4.createTokenAssets l ts t logo (.ok tx) .err ms now =
        (.error .remote, ts ++ ["./temp_metadata_" ++ toString now ++ ".json"])) ∧
    (∀ (db : ProductionDatabase.DB) (ts : List String)
       (t : IrysService.TokenInput) (logo : FileSpec) (w ip : String)
       (lo mo : UpOutcome) (ms : Nat) (now : Int),
      ("temp/metadata_" ++ ("token_" ++ w.take 8 ++ "_" ++ toString now) ++ ".json")
        ∉ ts →
      (IrysService.createTokenAssets db ts t logo w ip lo mo ms now).2.2 = ts) ∧
    (∀ (db : ProductionDatabase.DB) (ts : List String)
       (t : IrysService.TokenInput) (logo : FileSpec) (w ip : String)
       (lo : UpOutcome) (ms : Nat) (now : Int),
      ((IrysService.createTokenAssets db ts t logo w ip lo .err ms now).1.isOk
          = false) ∧
      (IrysService.createTokenAssets db ts t logo w ip lo .err ms now).2.1.uploads
          = db.uploads ∧
      (IrysService.createTokenAssets db ts t logo w ip lo .err ms now).2.1.tokenAssets
          = db.tokenAssets) ∧
    (∀ (db : ProductionDatabase.DB) (ts : List String)
       (t : IrysService.TokenInput) (logo : FileSpec) (w ip : String)
       (mo : UpOutcome) (ms : Nat) (now : Int),
      ((IrysService.createTokenAssets db ts t logo w ip .err mo ms now).1.isOk
          = false) ∧
      (IrysService.createTokenAssets db ts t logo w ip .err mo ms now).2.1.uploads
          = db.uploads ∧
      (IrysService.createTokenAssets db ts t logo w ip .err mo ms now).2.1.tokenAssets
          = db.tokenAssets) ∧
    (∀ (db : ProductionDatabase.DB) (ts : List String)
       (t : IrysService.TokenInput) (logo : FileSpec) (w ip : String)
       (lo mo : UpOutcome) (ms : Nat) (now : Int) (e : ValidationError),
      (ProductionDatabase.checkRateLimit db.rateLimits w ip now).2.allowed = true →
      IrysService.validateFile logo = .error e →
      (IrysService.createTokenAssets db ts t logo w ip lo mo ms now).1 =
          .error (.validation e) ∧
      (IrysService.createTokenAssets db ts t logo w ip lo mo ms now).2.1.uploads
          = db.uploads ∧
      (IrysService.createTokenAssets db ts t logo w ip lo mo ms now).2.1.tokenAssets
          = db.tokenAssets) ∧
    (∀ (db : ProductionDatabase.DB) (ts : List String)
       (t : IrysService.TokenInput) (logo : FileSpec) (w ip : String)
       (lo mo : UpOutcome) (ms : Nat) (now : Int),
      (ProductionDatabase.checkRateLimit db.rateLimits w ip now).2.allowed = false →
      IrysService.createTokenAssets db ts t logo w ip lo mo ms now =
        (.error .rateLimited,
         { db with rateLimits :=
             (ProductionDatabase.checkRateLimit db.rateLimits w ip now).1 },
         ts)) ∧
    (∀ (ts : List String) (t : IrysService.TokenInput) (logo : FileSpec)
       (lo mo : UpOutcome) (ms : Nat) (r : TokenCreator3.TokenResult),
      "./temp_metadata.json" ∉ ts →
      (TokenCreator3.uploadTokenAssets ts t logo lo mo ms).1 = .ok r →
      (TokenCreator3.uploadTokenAssets ts t logo lo mo ms).2 = ts) := by
  refine ⟨?_, ?_, ?_, ?_, ?_, ?_, ?_, ?_⟩
  · intro l ts t logo lo mo ms now r hmem hok
    unfold TokenCreator4.createTokenAssets at hok ⊢
    cases hv : TokenCreator4.validateAndDetectFile l logo with
    | error e => simp [hv] at hok
    | ok info =>
      simp only [hv] at hok ⊢
      cases hu1 : TokenCreator4.uploadFile l logo lo with
      | error e => simp [hu1] at hok
      | ok lr =>
        simp only [hu1] at hok ⊢
        cases hu2 : TokenCreator4.uploadFile l
            ⟨true, ms, ".json", "temp_metadata_" ++ toString now ++ ".json"⟩ mo with
        | error e => simp [hu2] at hok
        | ok mr =>
          simp only [hu2]
          exact erase_append_singleton ts _ hmem
  · intro l ts t logo tx ms now info hv hms
    unfold TokenCreator4.createTokenAssets
    simp only [hv]
    have hu1 : TokenCreator4.uploadFile l logo (.ok tx) =
        .ok ⟨tx, "https://gateway.irys.xyz/" ++ tx, logo.baseName, info.size,
             info.type.type, info.category⟩ := by
      unfold TokenCreator4.uploadFile
      simp [hv]
    simp only [hu1]
    have hv2 : TokenCreator4.validateAndDetectFile l
        ⟨true, ms, ".json", "temp_metadata_" ++ toString now ++ ".json"⟩ =
        .ok ⟨ms, ⟨"application/json", "application/json", "document"⟩,
             "document", l.maxUploadSize⟩ := by
      unfold TokenCreator4.validateAndDetectFile
      simp [lookupKey, TokenCreator4.FILE_TYPES, TokenCreator4.maxAllowedSize,
            Nat.not_lt.mpr hms]
    have hu2 : TokenCreator4.uploadFile l
        ⟨true, ms, ".json", "temp_metadata_" ++ toString now ++ ".json"⟩ .err =
        .error .remote := by
      unfold TokenCreator4.uploadFile
      simp [hv2]
    simp only [hu2]
  · intro db ts t logo w ip lo mo ms now hmem
    unfold IrysService.createTokenAssets
    simp only []
    repeat' split
    all_goals first
      | rfl
      | exact erase_append_singleton ts _ hmem
  · intro db ts t logo w ip lo ms now
    exact IrysService.createTokenAssets_metaErr db ts t logo w ip lo ms now
  · intro db ts t logo w ip mo ms now
    exact IrysService.createTokenAssets_logoErr db ts t logo w ip mo ms now
  · intro db ts t logo w ip lo mo ms now e hr hv
    unfold IrysService.createTokenAssets
    simp only [hr, hv]
    refine ⟨rfl, ?_, ?_⟩ <;>
      simp [ProductionDatabase.createOrUpdateUser_uploads,
            ProductionDatabase.createOrUpdateUser_tokenAssets]
  · intro db ts t logo w ip lo mo ms now hr
    unfold IrysService.createTokenAssets
    simp [hr]
  · intro ts t logo lo mo ms r hmem hok
    unfold TokenCreator3.uploadTokenAssets at hok ⊢
    cases hu1 : TokenCreator3.fastUpload logo lo with
    | error e => simp [hu1] at hok
    | ok lr =>
      simp only [hu1] at hok ⊢
      cases hu2 : TokenCreator3.fastUpload
          ⟨true, ms, ".json", "temp_metadata.json"⟩ mo with
      | error e => simp [hu2] at hok
      | ok mr =>
        simp only [hu2]
        exact erase_append_singleton ts _ hmem

/-- C1 witness: a concrete part_004 run whose metadata upload fails
returns the residual temp file, and a concrete production run with the
same failure leaves no temp file. -/
theorem c1_witness :
    TokenCreator4.createTokenAssets TokenCreator4.defaultLimits []
        ⟨"Tok", "TK", "d", none⟩ ⟨true, 100, ".png", "logo.png"⟩
        (.ok "L1") .err 50 7 =
      (.error .remote, [] ++ ["./temp_metadata_" ++ toString (7 : Int) ++ ".json"]) ∧
    (IrysService.createTokenAssets ⟨[], [], [], []⟩ [] ⟨"Tok", "TK", "d", none⟩
        ⟨true, 100, ".png", "l.png"⟩ "wallet111" "ip" (.ok "L1") .err 50 0).2.2
      = [] := by
  exact ⟨c1_failure_side_effects.2.1 TokenCreator4.defaultLimits []
           ⟨"Tok", "TK", "d", none⟩ ⟨true, 100, ".png", "logo.png"⟩ "L1" 50 7
           ⟨100, ⟨"image/png", "image/png", "image"⟩, "image", 2097152⟩
           rfl (by decide),
         c1_failure_side_effects.2.2.1 ⟨[], [], [], []⟩ []
           ⟨"Tok", "TK", "d", none⟩ ⟨true, 100, ".png", "l.png"⟩
           "wallet111" "ip" (.ok "L1") .err 50 0 (by simp)⟩

theorem IrysService.validateFile_ok_lookup (f : FileSpec)
    (info : IrysService.FileInfo) (h : IrysService.validateFile f = .ok info) :
    lookupKey IrysService.SUPPORTED_TYPES f.ext = some info.type := by
  unfold IrysService.validateFile at h
  by_cases he : f.fileExists
  · simp only [he, not_true, if_neg, Bool.true_eq_false, not_false_eq_true,
      if_true, ite_false, ite_true] at h
    cases hl : lookupKey IrysService.SUPPORTED_TYPES f.ext with
    | none => simp [hl] at h
    | some ti =>
      rw [hl] at h
      by_cases hs : f.size > ti.maxSize
      · simp [hs] at h
      · simp only [hs, ite_false, if_neg, not_false_eq_true] at h
        by_cases hz : f.size = 0
        · simp [hz] at h
        · simp only [hz, ite_false, if_neg, not_false_eq_true] at h
          simp only [Except.ok.injEq] at h
          rw [← h]
  · simp [he] at h

theorem TokenCreator4.validateAndDetectFile_ok_lookup
    (l : TokenCreator4.Limits) (f : FileSpec) (info : TokenCreator4.FileInfo)
    (h : TokenCreator4.validateAndDetectFile l f = .ok info) :
    lookupKey TokenCreator4.FILE_TYPES f.ext = some info.type := by
  unfold TokenCreator4.validateAndDetectFile at h
  by_cases he : f.fileExists
  · simp only [he, not_true, Bool.true_eq_false, not_false_eq_true,
      ite_false, ite_true] at h
    cases hl : lookupKey TokenCreator4.FILE_TYPES f.ext with
    | none => simp [hl] at h
    | some ti =>
      rw [hl] at h
      by_cases hs : f.size > TokenCreator4.maxAllowedSize l ti.category
      · simp [hs] at h
      · simp only [hs, ite_false, if_neg, not_false_eq_true] at h
        simp only [Except.ok.injEq] at h
        rw [← h]
  · simp [he] at h

/-- C6 counterexample.  In part_003's `uploadTokenAssets` the metadata
document's declared file type is the fixed default `"image/png"` and is
never updated, so running the pipeline on a `.gif` logo uploads a
metadata document declaring `"image/png"` while the detected content type
of the logo (the `Content-Type` tag computed by `getContentType`) is
`"image/gif"`. -/
theorem c6_counterexample :
    ((TokenCreator3.uploadTokenAssets [] ⟨"Tok", "TK", "d", none⟩
        ⟨true, 100, ".gif", "logo.gif"⟩ (.ok "L1") (.ok "M1") 50).1.toOption.map
      (fun r => r.metadata.filesType)) = some "image/png" ∧
    TokenCreator3.getContentType ".gif" = "image/gif" := by
  constructor <;> rfl

/-- C6 (amended): in the production pipeline, in part_001's
`createTokenAssetsMultiUser`, and in part_004's `createTokenAssets`, every
successful run declares inside the metadata document exactly the detected
content type of the primary asset (its registry entry for the logo's
extension); part_003's `uploadTokenAssets` instead always declares the
fixed default `"image/png"` (see the counterexample). -/
theorem c6_metadata_type_detection :
    (∀ (db : ProductionDatabase.DB) (ts : List String)
       (t : IrysService.TokenInput) (logo : FileSpec) (w ip : String)
       (lo mo : UpOutcome) (ms : Nat) (now : Int) (r : IrysService.TokenResult)
       (ti : IrysService.TypeInfo),
      (IrysService.createTokenAssets db ts t logo w ip lo mo ms now).1 = .ok r →
      lookupKey IrysService.SUPPORTED_TYPES logo.ext = some ti →
      r.metadata.filesType = ti.mime ∧ r.logoType = ti.mime) ∧
    (∀ (db : UserManager.DB) (ts : List String) (t : IrysService.TokenInput)
       (logo : FileSpec) (uid ip : String) (lo mo : UpOutcome) (ms : Nat)
       (sid1 sid2 : String) (now : Int) (r : MultiUserService.TokenResult)
       (ti : MultiUserService.TypeInfo),
      (MultiUserService.createTokenAssetsMultiUser db ts t logo uid ip lo mo
          ms sid1 sid2 now).1 = .ok r →
      lookupKey MultiUserService.FILE_TYPES logo.ext = some ti →
      r.metadata.filesType = ti.mime ∧ r.logoType = ti.mime) ∧
    (∀ (l : TokenCreator4.Limits) (ts : List String) (t : IrysService.TokenInput)
       (logo : FileSpec) (lo mo : UpOutcome) (ms : Nat) (now : Int)
       (r : TokenCreator4.TokenResult) (ti : TokenCreator4.TypeInfo),
      (TokenCreator4.createTokenAssets l ts t logo lo mo ms now).1 = .ok r →
      lookupKey TokenCreator4.FILE_TYPES logo.ext = some ti →
      r.metadata.filesType = ti.type ∧ r.logoType = ti.type) := by
  refine ⟨?_, ?_, ?_⟩
  · intro db ts t logo w ip lo mo ms now r ti h hti
    unfold IrysService.createTokenAssets at h
    by_cases hr : (ProductionDatabase.checkRateLimit db.rateLimits w ip now).2.allowed
    · simp only [hr, not_true, Bool.true_eq_false, not_false_eq_true,
        ite_true, ite_false] at h
      cases hv : IrysService.validateFile logo with
      | error e => simp [hv] at h
      | ok info =>
        simp only [hv] at h
        cases hu1 : IrysService.uploadFile logo lo
            ("token_" ++ w.take 8 ++ "_" ++ toString now) with
        | error e => simp [hu1] at h
        | ok lr =>
          simp only [hu1] at h
          cases hu2 : IrysService.uploadFile
              ⟨true, ms, ".json",
               "metadata_" ++ ("token_" ++ w.take 8 ++ "_" ++ toString now)
                 ++ ".json"⟩
              mo ("token_" ++ w.take 8 ++ "_" ++ toString now) with
          | error e => simp [hu2] at h
          | ok mr =>
            simp only [hu2] at h
            have hlk := IrysService.validateFile_ok_lookup logo info hv
            have hty : info.type = ti := by
              have := hlk.symm.trans hti
              exact Option.some.inj this
            revert h
            split
            · intro h; simp at h
            · split
              · intro h; simp at h
              · intro h
                simp only [Except.ok.injEq] at h
                rw [← h, hty]
                exact ⟨rfl, rfl⟩
    · simp [hr] at h
  · intro db ts t logo uid ip lo mo ms sid1 sid2 now r ti h hti
    unfold MultiUserService.createTokenAssetsMultiUser at h
    rcases hu1 : MultiUserService.uploadFileWithUserTracking db logo uid ip
        lo sid1 now with ⟨res1, db1⟩
    rw [hu1] at h
    cases res1 with
    | error e => simp at h
    | ok lr =>
      simp only [] at h
      rcases hu2 : MultiUserService.uploadFileWithUserTracking db1
          ⟨true, ms, ".json", "metadata_" ++ uid ++ ".json"⟩ uid ip mo sid2 now
        with ⟨res2, db2⟩
      rw [hu2] at h
      cases res2 with
      | error e => simp at h
      | ok mr =>
        simp only [Except.ok.injEq] at h
        rw [← h]
        simp [hti]
  · intro l ts t logo lo mo ms now r ti h hti
    unfold TokenCreator4.createTokenAssets at h
    cases hv : TokenCreator4.validateAndDetectFile l logo with
    | error e => simp [hv] at h
    | ok info =>
      simp only [hv] at h
      cases hu1 : TokenCreator4.uploadFile l logo lo with
      | error e => simp [hu1] at h
      | ok lr =>
        simp only [hu1] at h
        cases hu2 : TokenCreator4.uploadFile l
            ⟨true, ms, ".json", "temp_metadata_" ++ toString now ++ ".json"⟩
            mo with
        | error e => simp [hu2] at h
        | ok mr =>
          simp only [hu2, Except.ok.injEq] at h
          have hlk := TokenCreator4.validateAndDetectFile_ok_lookup l logo info hv
          have hty : info.type = ti := Option.some.inj (hlk.symm.trans hti)
          rw [← h, hty]
          exact ⟨rfl, rfl⟩

/-- C6 witness: a concrete successful production run on a `.png` logo
declares `"image/png"`, the detected type, inside the metadata document. -/
theorem c6_witness :
    ((IrysService.createTokenAssets ⟨[], [], [], []⟩ [] ⟨"Tok", "TK", "d", none⟩
        ⟨true, 100, ".png", "l.png"⟩ "wallet111" "ip" (.ok "L1") (.ok "M1")
        50 0).1 =
      .ok ⟨"https://gateway.irys.xyz/L1", "https://gateway.irys.xyz/M1",
           "L1", "M1", "image/png", "image",
           ⟨"Tok", "TK", "d", "https://gateway.irys.xyz/L1", "",
            "https://gateway.irys.xyz/L1", "image/png", "image"⟩,
           "token_wallet11_0"⟩) ∧
    (⟨"https://gateway.irys.xyz/L1", "https://gateway.irys.xyz/M1",
      "L1", "M1", "image/png", "image",
      ⟨"Tok", "TK", "d", "https://gateway.irys.xyz/L1", "",
       "https://gateway.irys.xyz/L1", "image/png", "image"⟩,
      "token_wallet11_0"⟩ : IrysService.TokenResult).metadata.filesType =
      "image/png" := by
  constructor
  · rfl
  · exact (c6_metadata_type_detection.1 ⟨[], [], [], []⟩ []
      ⟨"Tok", "TK", "d", none⟩ ⟨true, 100, ".png", "l.png"⟩ "wallet111" "ip"
      (.ok "L1") (.ok "M1") 50 0
      ⟨"https://gateway.irys.xyz/L1", "https://gateway.irys.xyz/M1",
       "L1", "M1", "image/png", "image",
       ⟨"Tok", "TK", "d", "https://gateway.irys.xyz/L1", "",
        "https://gateway.irys.xyz/L1", "image/png", "image"⟩,
       "token_wallet11_0"⟩
      ⟨"image/png", "image", 2097152⟩ (by rfl) (by rfl)).1

theorem UserManager.createOrGetUser_uploadHistory (db : UserManager.DB)
    (uid : String) (em : Option String) (now : Int) :
    (UserManager.createOrGetUser db uid em now).uploadHistory =
      db.uploadHistory := by
  unfold UserManager.createOrGetUser
  split <;> rfl

/-- A single-file upload whose remote call fails records nothing in
`upload_history` (only the user touch, the consumed rate slot and the
`active_uploads` status change happen), and the failure propagates. -/
theorem MultiUserService.uploadFileWithUserTracking_err (db : UserManager.DB)
    (f : FileSpec) (uid ip sid : String) (now : Int) :
    ((MultiUserService.uploadFileWithUserTracking db f uid ip .err sid
        now).1.isOk = false) ∧
    (MultiUserService.uploadFileWithUserTracking db f uid ip .err sid
        now).2.uploadHistory = db.uploadHistory := by
  unfold MultiUserService.uploadFileWithUserTracking
  simp only []
  repeat' split
  all_goals refine ⟨rfl, ?_⟩
  all_goals
    simp [UserManager.createOrGetUser_uploadHistory, UserManager.startUpload,
          UserManager.completeUpload]

/-- A single-file upload whose remote call succeeds appends exactly its
Upload row (file name, size, detected type, derived URL) to
`upload_history`. -/
theorem MultiUserService.uploadFileWithUserTracking_ok (db : UserManager.DB)
    (f : FileSpec) (uid ip sid tx : String) (now : Int)
    (ti : MultiUserService.TypeInfo) (r : MultiUserService.UploadResult)
    (db1 : UserManager.DB)
    (hti : lookupKey MultiUserService.FILE_TYPES f.ext = some ti)
    (h : MultiUserService.uploadFileWithUserTracking db f uid ip (.ok tx) sid
        now = (.ok r, db1)) :
    db1.uploadHistory = db.uploadHistory ++
      [⟨uid, tx, f.baseName, f.size, ti.mime,
        "https://gateway.irys.xyz/" ++ tx, 0, now⟩] := by
  unfold MultiUserService.uploadFileWithUserTracking at h
  simp only [hti] at h
  repeat' split at h
  all_goals first
    | (exfalso; simp_all; done)
    | (simp only [Prod.mk.injEq, Except.ok.injEq] at h
       rw [← h.2]
       simp [UserManager.completeUpload, UserManager.recordUpload,
             UserManager.startUpload, UserManager.createOrGetUser_uploadHistory])

/-- C8 counterexample.  In the production `createTokenAssets`, ledger
recording is deferred until after both uploads succeed: with the logo
upload succeeding ("L1") and the metadata upload failing (remote error),
the call fails but the `uploads` table is empty afterwards — the primary
asset's Upload ledger row does not persist because it was never written
(the remote artifact is orphaned *unrecorded*). -/
theorem c8_counterexample :
    (IrysService.createTokenAssets ⟨[], [], [], []⟩ [] ⟨"Tok", "TK", "d", none⟩
        ⟨true, 100, ".png", "l.png"⟩ "wallet111" "ip" (.ok "L1") .err 50 0).1 =
      .error .remote ∧
    (IrysService.createTokenAssets ⟨[], [], [], []⟩ [] ⟨"Tok", "TK", "d", none⟩
        ⟨true, 100, ".png", "l.png"⟩ "wallet111" "ip" (.ok "L1") .err 50
        0).2.1.uploads = [] := by
  constructor <;> rfl

/-- C8 (amended): when the primary-asset upload succeeds and the metadata
upload then fails, the call returns a partial-failure error and no
TokenAsset row is created; in part_001's pipeline (which records each
upload inside `uploadFileWithUserTracking`) the primary Upload row is
written by the logo upload and persists, while in the production
pipeline — which records only after both uploads succeed — no Upload row
exists for the primary asset either (see the counterexample). -/
theorem c8_partial_failure :
    (∀ (db : UserManager.DB) (f : FileSpec) (uid ip sid tx : String) (now : Int)
       (ti : MultiUserService.TypeInfo) (r : MultiUserService.UploadResult)
       (db1 : UserManager.DB),
      lookupKey MultiUserService.FILE_TYPES f.ext = some ti →
      MultiUserService.uploadFileWithUserTracking db f uid ip (.ok tx) sid now
        = (.ok r, db1) →
      db1.uploadHistory = db.uploadHistory ++
        [⟨uid, tx, f.baseName, f.size, ti.mime,
          "https://gateway.irys.xyz/" ++ tx, 0, now⟩]) ∧
    (∀ (db : UserManager.DB) (ts : List String) (t : IrysService.TokenInput)
       (logo : FileSpec) (uid ip tx : String) (ms : Nat) (sid1 sid2 : String)
       (now : Int) (r : MultiUserService.UploadResult) (db1 : UserManager.DB),
      MultiUserService.uploadFileWithUserTracking db logo uid ip (.ok tx) sid1
        now = (.ok r, db1) →
      ((MultiUserService.createTokenAssetsMultiUser db ts t logo uid ip
          (.ok tx) .err ms sid1 sid2 now).1.isOk = false) ∧
      (MultiUserService.createTokenAssetsMultiUser db ts t logo uid ip
          (.ok tx) .err ms sid1 sid2 now).2.1.uploadHistory =
        db1.uploadHistory) ∧
    (∀ (db : ProductionDatabase.DB) (ts : List String)
       (t : IrysService.TokenInput) (logo : FileSpec) (w ip tx : String)
       (ms : Nat) (now : Int),
      ((IrysService.createTokenAssets db ts t logo w ip (.ok tx) .err ms
          now).1.isOk = false) ∧
      (IrysService.createTokenAssets db ts t logo w ip (.ok tx) .err ms
          now).2.1.uploads = db.uploads ∧
      (IrysService.createTokenAssets db ts t logo w ip (.ok tx) .err ms
          now).2.1.tokenAssets = db.tokenAssets) := by
  refine ⟨?_, ?_, ?_⟩
  · intro db f uid ip sid tx now ti r db1 hti h
    exact MultiUserService.uploadFileWithUserTracking_ok db f uid ip sid tx
      now ti r db1 hti h
  · intro db ts t logo uid ip tx ms sid1 sid2 now r db1 h
    unfold MultiUserService.createTokenAssetsMultiUser
    rw [h]
    simp only []
    have hx := MultiUserService.uploadFileWithUserTracking_err db1
      ⟨true, ms, ".json", "metadata_" ++ uid ++ ".json"⟩ uid ip sid2 now
    rcases hm : MultiUserService.uploadFileWithUserTracking db1
        ⟨true, ms, ".json", "metadata_" ++ uid ++ ".json"⟩ uid ip .err sid2 now
      with ⟨res2, db2⟩
    rw [hm] at hx
    cases res2 with
    | error e =>
      exact ⟨rfl, hx.2⟩
    | ok mr =>
      exact Bool.noConfusion hx.1
  · intro db ts t logo w ip tx ms now
    exact IrysService.createTokenAssets_metaErr db ts t logo w ip (.ok tx) ms now

/-- C8 witness: a concrete part_001 run — logo upload succeeds ("L1"),
metadata upload fails — ends in an error with the logo's Upload row
persisted in `upload_history`. -/
theorem c8_witness :
    ((MultiUserService.createTokenAssetsMultiUser ⟨[], [], [], []⟩ []
        ⟨"Tok", "TK", "d", none⟩ ⟨true, 100, ".png", "l.png"⟩ "u1" "ip"
        (.ok "L1") .err 50 "s1" "s2" 0).1.isOk = false) ∧
    (MultiUserService.createTokenAssetsMultiUser ⟨[], [], [], []⟩ []
        ⟨"Tok", "TK", "d", none⟩ ⟨true, 100, ".png", "l.png"⟩ "u1" "ip"
        (.ok "L1") .err 50 "s1" "s2" 0).2.1.uploadHistory =
      [⟨"u1", "L1", "l.png", 100, "image/png",
        "https://gateway.irys.xyz/L1", 0, 0⟩] := by
  exact c8_partial_failure.2.1 ⟨[], [], [], []⟩ [] ⟨"Tok", "TK", "d", none⟩
    ⟨true, 100, ".png", "l.png"⟩ "u1" "ip" "L1" 50 "s1" "s2" 0
    ⟨"L1", "https://gateway.irys.xyz/L1", "l.png", 100, "image/png"⟩
    ⟨[⟨"u1", none, 0, 0, 1, 100, "active"⟩],
     [⟨"u1", "L1", "l.png", 100, "image/png",
       "https://gateway.irys.xyz/L1", 0, 0⟩],
     [⟨"u1", 0, "ip"⟩], [⟨1, "u1", "s1", "l.png", 0, "completed"⟩]⟩ (by rfl)
